import Mathlib

/-!
Verification of the pycane tropical-cyclone track-parsing and
track-differencing core (src/pycane/postproc/tracker/{utils,objects}.py).

The Python source is shallowly embedded: each parser is a recursion over the
list of input lines carrying the mutable state the Python loop carries
(the ForecastTrack under construction plus the bookkeeping lists), and every
Python exception path (ValueError from int()/float(), TypeError, failed
assert, IndexError, explicit raise) is an Except error.  Machine floats are
modelled as rationals except for the great-circle distance, which is real
valued.  File I/O is abstracted: a parser takes the list of lines the Python
code obtains from readlines().
-/

/-- The Python exceptions the embedded code can raise. -/
inductive PyError where
  | valueError      -- int()/float() on a non-numeric string
  | typeError       -- e.g. calling a dict, None arithmetic
  | indexError      -- sequence index out of range
  | assertionError  -- failed assert statement
  | malformedTimestamp  -- date-conversion failure (spec section 4.1)
  | exception       -- explicit `raise Exception(...)`
  deriving Repr, DecidableEq

deriving instance DecidableEq for Except

/-- Python str.strip() on a character list: drop leading and trailing
whitespace. -/
def pyStripChars (cs : List Char) : List Char :=
  List.reverse
    (List.dropWhile Char.isWhitespace
      (List.reverse (List.dropWhile Char.isWhitespace cs)))

/-- Python str.strip(). -/
def pyStrip (s : String) : String := ⟨pyStripChars s.data⟩

/-- Worker for Python str.split() with no argument: split on runs of
whitespace, dropping empty fields; acc holds the current token reversed. -/
def pySplitWsAux : List Char → List Char → List String
  | [], acc => if acc.isEmpty then [] else [⟨acc.reverse⟩]
  | c :: rest, acc =>
      if c.isWhitespace then
        (if acc.isEmpty then pySplitWsAux rest []
         else ⟨acc.reverse⟩ :: pySplitWsAux rest [])
      else pySplitWsAux rest (c :: acc)

/-- Python str.split() with no argument. -/
def pySplitWs (s : String) : List String := pySplitWsAux s.data []

/-- Worker for Python str.split(sep) with a one-character separator:
split at every occurrence, keeping empty fields. -/
def pySplitCharAux (sep : Char) : List Char → List Char → List String
  | [], acc => [⟨acc.reverse⟩]
  | c :: rest, acc =>
      if c = sep then ⟨acc.reverse⟩ :: pySplitCharAux sep rest []
      else pySplitCharAux sep rest (c :: acc)

/-- Python str.split(sep) for a one-character separator sep. -/
def pySplitChar (s : String) (sep : Char) : List String :=
  pySplitCharAux sep s.data []

/-- Worker for Python str.split(", "): split at every non-overlapping
occurrence of comma-space, keeping empty fields. -/
def pySplitCommaSpaceAux : List Char → List Char → List String
  | [], acc => [⟨acc.reverse⟩]
  | [c], acc => [⟨(c :: acc).reverse⟩]
  | c1 :: c2 :: rest, acc =>
      if c1 = ',' ∧ c2 = ' ' then
        ⟨acc.reverse⟩ :: pySplitCommaSpaceAux rest []
      else pySplitCommaSpaceAux (c2 :: rest) (c1 :: acc)

/-- Python str.split(", "), the b-deck tokenization. -/
def pySplitCommaSpace (s : String) : List String :=
  pySplitCommaSpaceAux s.data []

/-- Characters of a string as a list of decimal digits, if all are digits. -/
def digitsOf (cs : List Char) : Option (List Nat) :=
  match cs with
  | [] => some []
  | c :: rest =>
      if c.isDigit then
        (digitsOf rest).map (fun ds => (c.toNat - 48) :: ds)
      else none

/-- Value of a list of decimal digits. -/
def natOfDigits (ds : List Nat) : Nat :=
  ds.foldl (fun acc d => acc * 10 + d) 0

/-- Python int(string): optional sign followed by at least one decimal digit
(the tokens handled here are already stripped).  Raises ValueError
otherwise. -/
def pyInt (s : String) : Except PyError Int :=
  let cs := s.data
  match cs with
  | '-' :: rest =>
      match digitsOf rest with
      | some ds => if rest = [] then .error .valueError
                   else .ok (-(natOfDigits ds : Int))
      | none => .error .valueError
  | '+' :: rest =>
      match digitsOf rest with
      | some ds => if rest = [] then .error .valueError
                   else .ok ((natOfDigits ds : Int))
      | none => .error .valueError
  | _ =>
      match digitsOf cs with
      | some ds => if cs = [] then .error .valueError
                   else .ok ((natOfDigits ds : Int))
      | none => .error .valueError

/-- Python float(string), restricted to the plain decimal forms appearing in
tracker files: optional sign, digits, optional fractional part.  Raises
ValueError otherwise. -/
def pyFloatBody (signed : Bool) (body : List Char) : Except PyError ℚ :=
  match pySplitCharAux '.' body [] with
  | [ip] =>
      match digitsOf ip.data with
      | some ds => if ip.data.isEmpty then .error .valueError
                   else
                     let v : Int := natOfDigits ds
                     .ok (Rat.divInt (if signed then -v else v) 1)
      | none => .error .valueError
  | [ip, fp] =>
      match digitsOf ip.data, digitsOf fp.data with
      | some ids, some fds =>
          if ip.data.isEmpty && fp.data.isEmpty then .error .valueError
          else
            -- intpart.fracpart = (intpart*10^k + fracpart) / 10^k with
            -- k fractional digits, written as one integer quotient
            let v : Int :=
              (natOfDigits ids) * 10 ^ fds.length + natOfDigits fds
            .ok (Rat.divInt (if signed then -v else v) (10 ^ fds.length))
      | _, _ => .error .valueError
  | _ => .error .valueError

def pyFloat (s : String) : Except PyError ℚ :=
  match s.data with
  | '-' :: body => pyFloatBody true body
  | '+' :: body => pyFloatBody false body
  | body => pyFloatBody false body

/-- Days from 1970-01-01 of a (proleptic Gregorian) civil date. -/
def daysFromCivil (y m d : Int) : Int :=
  let y1 : Int := if m ≤ 2 then y - 1 else y
  let era : Int := Int.fdiv y1 400
  let yoe : Int := y1 - era * 400
  let mp : Int := Int.emod (m + 9) 12
  let doy : Int := Int.fdiv (153 * mp + 2) 5 + d - 1
  let doe : Int := yoe * 365 + Int.fdiv yoe 4 - Int.fdiv yoe 100 + doy
  era * 146097 + doe - 719468

/-- Epoch seconds of a civil date-time (timezone-naive UTC, per spec
section 4.1). -/
def civilEpoch (y m d hh mi ss : Int) : Int :=
  ((daysFromCivil y m d) * 24 + hh) * 3600 + mi * 60 + ss

/-- Modelled from the spec: pycane.timing.conversions.yyyymmddHH_to_epoch is
not under src/.  Per spec section 4.1 it converts a fixed-width YYYYMMDDHH
calendar string to epoch seconds (timezone-naive UTC) and fails with
MalformedTimestamp on wrong-length or non-numeric input. -/
def yyyymmddHH_to_epoch (s : String) : Except PyError Int :=
  if s.data.length = 10 then
    match digitsOf s.data with
    | some ds =>
        let y : Int := natOfDigits (ds.take 4)
        let m : Int := natOfDigits ((ds.drop 4).take 2)
        let d : Int := natOfDigits ((ds.drop 6).take 2)
        let h : Int := natOfDigits (ds.drop 8)
        .ok (civilEpoch y m d h 0 0)
    | none => .error .malformedTimestamp
  else .error .malformedTimestamp

/-- Modelled from the spec: pycane.timing.conversions.yyyymmddHHMMSS_to_epoch
is not under src/.  Per spec section 4.1 it converts a fixed-width
YYYYMMDDHHMMSS calendar string to epoch seconds, failing with
MalformedTimestamp on wrong-length or non-numeric input. -/
def yyyymmddHHMMSS_to_epoch (s : String) : Except PyError Int :=
  if s.data.length = 14 then
    match digitsOf s.data with
    | some ds =>
        let y : Int := natOfDigits (ds.take 4)
        let m : Int := natOfDigits ((ds.drop 4).take 2)
        let d : Int := natOfDigits ((ds.drop 6).take 2)
        let hh : Int := natOfDigits ((ds.drop 8).take 2)
        let mi : Int := natOfDigits ((ds.drop 10).take 2)
        let ss : Int := natOfDigits (ds.drop 12)
        .ok (civilEpoch y m d hh mi ss)
    | none => .error .malformedTimestamp
  else .error .malformedTimestamp

/-- objects.TrackerData: one tracker reading.  Python floats are modelled as
rationals; `fhr` is Option because the GEOS5 parser passes None.  The flagged
argument is always a Python bool at every call site in the repository, so the
str(flagged) dispatch of the constructor is the identity here.  `fcst_date`
is the absolute epoch of the reading; it is absent when neither a fcstDate
argument nor a forecast hour is available (the Python object then simply
lacks the attribute). -/
structure TrackerData where
  start_date : Int
  fhr : Option Int
  flagged : Bool
  lat : ℚ
  lon : ℚ
  mslp_value : ℚ
  maxwind_value : ℚ
  fcst_date : Option Int
  deriving Repr, DecidableEq

/-- The TrackerData constructor logic for `fcst_date` (objects.py 285-294):
use the fcstDate argument when given, otherwise derive start_date + fhr
hours when fhr is not None, otherwise leave the attribute unset. -/
def mkTrackerData (startDate : Int) (fhr : Option Int) (flagged : Bool)
    (lat lon mslp maxwind : ℚ) (fcstDate : Option Int := none) : TrackerData :=
  { start_date := startDate
    fhr := fhr
    flagged := flagged
    lat := lat
    lon := lon
    mslp_value := mslp
    maxwind_value := maxwind
    fcst_date :=
      match fcstDate with
      | some d => some d
      | none => fhr.map (fun h => startDate + h * 3600) }

/-- objects.TrackerData.get_fhr_epoch: start_date + fhr*3600.  In Python a
None fhr makes the multiplication raise TypeError; here the result is none. -/
def TrackerData.get_fhr_epoch (e : TrackerData) : Option Int :=
  e.fhr.map (fun h => e.start_date + h * 3600)

/-- objects.ForecastTrack: a track is its reference epoch plus the ordered
tracker entries (storm metadata kept with the source's defaults). -/
structure ForecastTrack where
  start_date : Int
  tracker_entries : List TrackerData
  originating_center : String := "NA"
  storm_name : String := "UNNAMED"
  storm_number : Int := 99
  basin : String := " "
  deriving Repr, DecidableEq

/-- objects.ForecastTrack.append_entry. -/
def ForecastTrack.append_entry (t : ForecastTrack) (e : TrackerData) :
    ForecastTrack :=
  { t with tracker_entries := t.tracker_entries ++ [e] }

/-- Lookup in a Python dict represented as its insertion sequence: the last
binding of a key wins. -/
def pyDictGet {α β : Type} [DecidableEq α] (d : List (α × β)) (k : α) :
    Option β :=
  (d.reverse.find? (fun p => p.1 = k)).map Prod.snd

/-- objects.ForecastTrack.absolute_times_dict: maps
start_date + entry.fhr*3600 to the entry, for every entry.  An entry with
fhr = None makes the Python expression raise TypeError. -/
def absolute_times_dict_aux (sd : Int) :
    List TrackerData → Except PyError (List (Int × TrackerData))
  | [] => .ok []
  | e :: rest =>
      match e.fhr with
      | none => .error .typeError
      | some h =>
          match absolute_times_dict_aux sd rest with
          | .error err => .error err
          | .ok d => .ok ((sd + h * 3600, e) :: d)

/-- objects.ForecastTrack.absolute_times_dict (objects.py 72-82). -/
def ForecastTrack.absolute_times_dict (t : ForecastTrack) :
    Except PyError (List (Int × TrackerData)) :=
  absolute_times_dict_aux t.start_date t.tracker_entries

/-- objects.ForecastTrack.fhr_dict (a @property, objects.py 84-93): maps each
entry's fhr to the entry. -/
def ForecastTrack.fhr_dict (t : ForecastTrack) :
    List (Option Int × TrackerData) :=
  t.tracker_entries.map (fun e => (e.fhr, e))

/-- objects.TrackerDataDiff: one per-timestamp difference record.  The track
error is real valued (great-circle distance); pressure and wind deltas stay
rational. -/
structure TrackerDataDiff where
  fhr : Option Int
  flagged : Bool
  track_error : ℝ
  mslp_error : ℚ
  maxwind_error : ℚ

/-- utils._great_circle_distance (utils.py 42-80): haversine on a spherical
earth of radius 6378137 m, in meters.  math.radians / math.atan2 are modelled
below with exact reals. -/
noncomputable def math_radians (x : ℝ) : ℝ := x * Real.pi / 180

/-- math.atan2(y, x) with the standard quadrant correction. -/
noncomputable def math_atan2 (y x : ℝ) : ℝ :=
  if 0 < x then Real.arctan (y / x)
  else if x < 0 then
    (if 0 ≤ y then Real.arctan (y / x) + Real.pi
     else Real.arctan (y / x) - Real.pi)
  else
    (if 0 < y then Real.pi / 2 else if y < 0 then -(Real.pi / 2) else 0)

noncomputable def _great_circle_distance (latlong_a latlong_b : ℚ × ℚ) : ℝ :=
  let EARTH_RADIUS : ℝ := 6378137
  let lat1 : ℝ := (latlong_a.1 : ℝ)
  let lon1 : ℝ := (latlong_a.2 : ℝ)
  let lat2 : ℝ := (latlong_b.1 : ℝ)
  let lon2 : ℝ := (latlong_b.2 : ℝ)
  let dLat := math_radians (lat2 - lat1)
  let dLon := math_radians (lon2 - lon1)
  let a := Real.sin (dLat / 2) * Real.sin (dLat / 2) +
           Real.cos (math_radians lat1) * Real.cos (math_radians lat2) *
           Real.sin (dLon / 2) * Real.sin (dLon / 2)
  let c := 2 * math_atan2 (Real.sqrt a) (Real.sqrt (1 - a))
  EARTH_RADIUS * c

/-- The differencer's position error: the source calls
geopy.distance.great_circle(latlonOne, latlonTwo).kilometers, an external
library implementing the standard spherical great-circle distance (spec
section 4.4: standard haversine or equivalent).  It is modelled by the
repository's own equivalent haversine _great_circle_distance (utils.py
42-80), scaled from meters to kilometers. -/
noncomputable def great_circle_kilometers (a b : ℚ × ℚ) : ℝ :=
  _great_circle_distance a b / 1000

/-- objects.ForecastTrackDiff._get_track_diffs, iteration over
track_one.tracker_entries (objects.py 203-259).  In the
absolute-time branch the source rebuilds track_two's absolute_times_dict on
every iteration, calls get_fhr_epoch on the track-one entry (TypeError if its
fhr is None), skips the entry when track_two has no binding for that epoch,
skips flagged pairs unless include_flagged, and otherwise appends the diff
record.  In the alignByAbsoluteTime=false branch the source executes
self.track_two.fhr_dict() — but fhr_dict is a @property, so this calls the
returned dict — and then subscripts trkTwoDict.has_key; both raise TypeError,
so reaching that branch with any entry at hand raises. -/
noncomputable def _get_track_diffs_loop (track_two : ForecastTrack)
    (absoluteTimeDiff : Bool) (operator : ℚ → ℚ → ℚ)
    (include_flagged : Bool) (absolute : Bool) :
    List TrackerData → Except PyError (List TrackerDataDiff)
  | [] => .ok []
  | trkOneEntry :: rest =>
      if absoluteTimeDiff then
        match track_two.absolute_times_dict with
        | .error err => .error err
        | .ok trkTwoDict =>
            match trkOneEntry.get_fhr_epoch with
            | none => .error .typeError
            | some k =>
                match pyDictGet trkTwoDict k with
                | none =>
                    _get_track_diffs_loop track_two absoluteTimeDiff operator
                      include_flagged absolute rest
                | some trkTwoEntry =>
                    if (trkTwoEntry.flagged || trkOneEntry.flagged) &&
                        !include_flagged then
                      _get_track_diffs_loop track_two absoluteTimeDiff
                        operator include_flagged absolute rest
                    else
                      let flagged := trkTwoEntry.flagged || trkOneEntry.flagged
                      let positionDiff := great_circle_kilometers
                        (trkOneEntry.lat, trkOneEntry.lon)
                        (trkTwoEntry.lat, trkTwoEntry.lon)
                      let mslpDiff := operator trkOneEntry.mslp_value
                        trkTwoEntry.mslp_value
                      let maxwindDiff := operator trkOneEntry.maxwind_value
                        trkTwoEntry.maxwind_value
                      let mslpDiff := if absolute then |mslpDiff| else mslpDiff
                      let maxwindDiff :=
                        if absolute then |maxwindDiff| else maxwindDiff
                      match _get_track_diffs_loop track_two absoluteTimeDiff
                          operator include_flagged absolute rest with
                      | .error err => .error err
                      | .ok ds =>
                          .ok ({ fhr := trkOneEntry.fhr, flagged := flagged,
                                 track_error := positionDiff,
                                 mslp_error := mslpDiff,
                                 maxwind_error := maxwindDiff } :: ds)
      else
        -- objects.py 229-230: self.track_two.fhr_dict() calls the dict the
        -- property returns, and trkTwoDict.has_key[...] subscripts a method:
        -- TypeError before any alignment happens.
        .error .typeError

/-- The tracker_entries of objects.ForecastTrackDiff(trackOne, trackTwo, ...)
with the constructor's defaults matching the source signature. -/
noncomputable def ForecastTrackDiff_tracker_entries
    (trackOne trackTwo : ForecastTrack) (absoluteTimeDiff : Bool := true)
    (operator : ℚ → ℚ → ℚ := fun a b => a - b)
    (include_flagged : Bool := true) (absolute : Bool := false) :
    Except PyError (List TrackerDataDiff) :=
  _get_track_diffs_loop trackTwo absoluteTimeDiff operator include_flagged
    absolute trackOne.tracker_entries

/-- Python int(float): truncation toward zero, used for
int(duration / 3600.0). -/
def pyTrunc (q : ℚ) : Int :=
  if 0 ≤ q then Int.floor q else -(Int.floor (-q))

/-- The duration guard shared by the Diapost and GFDL parsers:
duration is not None and fhr > int(duration / 3600.0). -/
def durationSkip (duration : Option ℚ) (fhr : Int) : Bool :=
  match duration with
  | none => false
  | some d => decide (fhr > pyTrunc (d / 3600))

/-- Python s[-1]: the last character; IndexError on the empty string. -/
def pyLast (s : String) : Except PyError Char :=
  match s.data.getLast? with
  | none => .error .indexError
  | some c => .ok c

/-- Python s[:-1]: the string without its last character (empty stays
empty). -/
def pyDropLast (s : String) : String := ⟨s.data.dropLast⟩

/-- utils._check_if_in_bounds (utils.py 82-106), with the source's
360-degree wraparound adjustments for negative south/west thresholds. -/
def _check_if_in_bounds (lat lon : ℚ)
    (nswe_thresh : Option (Option ℚ × Option ℚ × Option ℚ × Option ℚ)) :
    Bool :=
  match nswe_thresh with
  | none => true
  | some (n, s, w, e) =>
      if (match n with | some nv => decide (lat > nv) | none => false) then
        false
      else if (match s with
               | some sv =>
                   let _lat := if lat < 0 then 360 + lat else lat
                   let _s := if sv < 0 then 360 + sv else sv
                   decide (_lat < _s)
               | none => false) then false
      else if (match w with
               | some wv =>
                   let _lon := if lon < 0 then 360 + lon else lon
                   let _w := if wv < 0 then 360 + wv else wv
                   decide (_lon < _w)
               | none => false) then false
      else if (match e with | some ev => decide (lon > ev) | none => false)
        then false
      else true

-- Diapost fcst_track file index values (utils.py 30-36)
def DIAPOST_TRACK_FILE_START_DATE_IDX : Nat := 0
def DIAPOST_TRACK_FILE_FHR_IDX : Nat := 1
def DIAPOST_TRACK_FILE_FLAG_IDX : Nat := 3
def DIAPOST_TRACK_FILE_LAT_IDX : Nat := 5
def DIAPOST_TRACK_FILE_LON_IDX : Nat := 4
def DIAPOST_TRACK_FILE_MSLP_IDX : Nat := 6
def DIAPOST_TRACK_FILE_maxwind_KTS_IDX : Nat := 7

/-- One iteration of the get_diapost_track_data line loop
(utils.py 143-188).  Lines whose whitespace token count is not 8 are logged
and skipped, as are forecast hours beyond the duration cap and entries that
are flagged (unless include_flagged_entries) or out of bounds; every
surviving line overwrites the track's start_date before the bounds/flag
filtering.  skip_land_points=False is fixed: the land test calls the
external Basemap collaborator and no claim exercises it. -/
def get_diapost_track_data_step (include_flagged_entries : Bool)
    (duration : Option ℚ)
    (nswe_thresh : Option (Option ℚ × Option ℚ × Option ℚ × Option ℚ))
    (track : ForecastTrack) (line : String) :
    Except PyError ForecastTrack :=
  let toks := pySplitWs line
  if toks.length ≠ 8 then .ok track
  else
    match pyInt (toks.getD DIAPOST_TRACK_FILE_FHR_IDX "") with
    | .error err => .error err
    | .ok fhr =>
        if durationSkip duration fhr then .ok track
        else
          match pyInt (toks.getD DIAPOST_TRACK_FILE_FLAG_IDX "") with
          | .error err => .error err
          | .ok flagv =>
              let flagged_entry : Bool := flagv != 0
              match yyyymmddHH_to_epoch
                  (toks.getD DIAPOST_TRACK_FILE_START_DATE_IDX "") with
              | .error err => .error err
              | .ok start_date =>
                  let track := { track with start_date := start_date }
                  match pyFloat (toks.getD DIAPOST_TRACK_FILE_LAT_IDX ""),
                        pyFloat (toks.getD DIAPOST_TRACK_FILE_LON_IDX "") with
                  | .error err, _ => .error err
                  | .ok _, .error err => .error err
                  | .ok lat, .ok lon =>
                      let in_bounds :=
                        if nswe_thresh.isSome then
                          _check_if_in_bounds lat lon nswe_thresh
                        else true
                      if in_bounds &&
                          (include_flagged_entries || !flagged_entry) then
                        match pyFloat
                            (toks.getD DIAPOST_TRACK_FILE_MSLP_IDX ""),
                          pyFloat
                            (toks.getD DIAPOST_TRACK_FILE_maxwind_KTS_IDX "")
                          with
                        | .error err, _ => .error err
                        | .ok _, .error err => .error err
                        | .ok mslp, .ok maxwind =>
                            .ok (track.append_entry
                              (mkTrackerData start_date (some fhr)
                                flagged_entry lat lon mslp maxwind))
                      else .ok track

/-- The get_diapost_track_data readlines loop. -/
def get_diapost_track_data_loop (include_flagged_entries : Bool)
    (duration : Option ℚ)
    (nswe_thresh : Option (Option ℚ × Option ℚ × Option ℚ × Option ℚ)) :
    List String → ForecastTrack → Except PyError ForecastTrack
  | [], track => .ok track
  | line :: rest, track =>
      match get_diapost_track_data_step include_flagged_entries duration
          nswe_thresh track line with
      | .error err => .error err
      | .ok track1 =>
          get_diapost_track_data_loop include_flagged_entries duration
            nswe_thresh rest track1

/-- utils.get_diapost_track_data (utils.py 109-189) over the lines of the
file, starting from the placeholder track ForecastTrack(-1). -/
def get_diapost_track_data (lines : List String)
    (include_flagged_entries : Bool := false) (duration : Option ℚ := none)
    (nswe_thresh :
      Option (Option ℚ × Option ℚ × Option ℚ × Option ℚ) := none) :
    Except PyError ForecastTrack :=
  get_diapost_track_data_loop include_flagged_entries duration nswe_thresh
    lines { start_date := -1, tracker_entries := [] }

-- GFDL tracker ATCF index values (utils.py 227-233)
def GFDLTRK_TRACK_FILE_START_DATE_IDX : Nat := 2
def GFDLTRK_TRACK_FILE_FHR_IDX : Nat := 5
def GFDLTRK_TRACK_FILE_LAT_IDX : Nat := 6
def GFDLTRK_TRACK_FILE_LON_IDX : Nat := 7
def GFDLTRK_TRACK_FILE_MSLP_IDX : Nat := 9
def GFDLTRK_TRACK_FILE_maxwind_KTS_IDX : Nat := 8

/-- The mutable state of the get_gfdltrk_track_data line loop: the
flagged-forecast-hours list, the processed-forecast-hours list and the track
under construction. -/
structure GfdlState where
  flagged_fhrs : List Int
  processed_fhrs : List Int
  cycle_track : ForecastTrack
  deriving Repr, DecidableEq

/-- One iteration of the get_gfdltrk_track_data line loop (utils.py
251-320).  A line is comma-split and stripped; token counts other than 43
and 20 are logged and skipped; a 20-token line is a fort.69 line (the
source's is_fort69 flag, inlined here) whose raw forecast hour is
floor-divided by 100 (Python 2 integer division); an already-processed
forecast hour is skipped (first occurrence wins); a latitude token equal to
the literal "0" appends the hour to flagged_fhrs, forces the flag, and
replaces latitude/longitude/pressure/wind with the placeholders
000N/000E/0/0 (the source assigns the Python integer 0 to the pressure and
wind slots; float(0) equals the float of the token "0").
skip_land_points=False is fixed: the land test calls the external Basemap
collaborator and no claim exercises it. -/
def get_gfdltrk_track_data_step (include_flagged_entries : Bool)
    (duration : Option ℚ) (st : GfdlState) (line : String) :
    Except PyError GfdlState :=
  let toks := (pySplitChar line ',').map pyStrip
  if ¬(toks.length = 43 ∨ toks.length = 20) then .ok st
  else
    match pyInt (toks.getD GFDLTRK_TRACK_FILE_FHR_IDX "") with
    | .error err => .error err
    | .ok fhr0 =>
        let fhr := if toks.length = 20 then Int.fdiv fhr0 100 else fhr0
        if fhr ∈ st.processed_fhrs then .ok st
        else if durationSkip duration fhr then .ok st
        else
          let processed_fhrs := st.processed_fhrs ++ [fhr]
          match yyyymmddHH_to_epoch
              (toks.getD GFDLTRK_TRACK_FILE_START_DATE_IDX "") with
          | .error err => .error err
          | .ok start_date =>
              let flagged_fhrs :=
                if toks.getD GFDLTRK_TRACK_FILE_LAT_IDX "" = "0" then
                  st.flagged_fhrs ++ [fhr]
                else st.flagged_fhrs
              let flagged_entry : Bool :=
                if toks.getD GFDLTRK_TRACK_FILE_LAT_IDX "" = "0" then true
                else decide (fhr ∈ st.flagged_fhrs)
              let latTok :=
                if toks.getD GFDLTRK_TRACK_FILE_LAT_IDX "" = "0" then "000N"
                else toks.getD GFDLTRK_TRACK_FILE_LAT_IDX ""
              let lonTok :=
                if toks.getD GFDLTRK_TRACK_FILE_LAT_IDX "" = "0" then "000E"
                else toks.getD GFDLTRK_TRACK_FILE_LON_IDX ""
              let mslpTok :=
                if toks.getD GFDLTRK_TRACK_FILE_LAT_IDX "" = "0" then "0"
                else toks.getD GFDLTRK_TRACK_FILE_MSLP_IDX ""
              let windTok :=
                if toks.getD GFDLTRK_TRACK_FILE_LAT_IDX "" = "0" then "0"
                else toks.getD GFDLTRK_TRACK_FILE_maxwind_KTS_IDX ""
              match pyInt (pyDropLast latTok) with
              | .error err => .error err
              | .ok latMag =>
                  match pyLast latTok with
                  | .error err => .error err
                  | .ok latSign =>
                      let lat : ℚ :=
                        if latSign = 'S' then -(Rat.divInt latMag 10)
                        else Rat.divInt latMag 10
                      match pyInt (pyDropLast lonTok) with
                      | .error err => .error err
                      | .ok lonMag =>
                          match pyLast lonTok with
                          | .error err => .error err
                          | .ok lonSign =>
                              let lon : ℚ :=
                                if lonSign = 'W' then -(Rat.divInt lonMag 10)
                                else Rat.divInt lonMag 10
                              let cycle_track :=
                                { st.cycle_track with
                                    start_date := start_date }
                              if include_flagged_entries ||
                                  !flagged_entry then
                                match pyFloat mslpTok, pyFloat windTok with
                                | .error err, _ => .error err
                                | .ok _, .error err => .error err
                                | .ok mslp, .ok maxwind =>
                                    .ok { flagged_fhrs := flagged_fhrs,
                                          processed_fhrs := processed_fhrs,
                                          cycle_track :=
                                            cycle_track.append_entry
                                              (mkTrackerData start_date
                                                (some fhr) flagged_entry
                                                lat lon mslp maxwind) }
                              else
                                .ok { flagged_fhrs := flagged_fhrs,
                                      processed_fhrs := processed_fhrs,
                                      cycle_track := cycle_track }

/-- The get_gfdltrk_track_data readlines loop. -/
def get_gfdltrk_track_data_loop (include_flagged_entries : Bool)
    (duration : Option ℚ) : List String → GfdlState →
    Except PyError GfdlState
  | [], st => .ok st
  | line :: rest, st =>
      match get_gfdltrk_track_data_step include_flagged_entries duration st
          line with
      | .error err => .error err
      | .ok st1 =>
          get_gfdltrk_track_data_loop include_flagged_entries duration rest
            st1

/-- utils.get_gfdltrk_track_data (utils.py 192-322).  The optional
side-file of forecast hours to flag is passed as its contents
(none = the file does not exist); the source seeds flagged_fhrs from it
only when include_flagged_entries is true (utils.py 240-245).  The
track starts as the placeholder ForecastTrack(-1). -/
def get_gfdltrk_track_data (lines : List String)
    (flagged_entries_file : Option (List Int) := none)
    (include_flagged_entries : Bool := false)
    (duration : Option ℚ := none) : Except PyError ForecastTrack :=
  let flagged_fhrs :=
    if include_flagged_entries then
      match flagged_entries_file with
      | some hours => hours
      | none => []
    else []
  match get_gfdltrk_track_data_loop include_flagged_entries duration lines
      { flagged_fhrs := flagged_fhrs, processed_fhrs := [],
        cycle_track := { start_date := -1, tracker_entries := [] } } with
  | .error err => .error err
  | .ok st => .ok st.cycle_track

/-- Python sequence indexing: IndexError when out of range. -/
def pyIdx (l : List String) (i : Nat) : Except PyError String :=
  match l.get? i with
  | some v => .ok v
  | none => .error .indexError

/-- Gregorian leap-year test (datetime's calendar). -/
def isLeapYear (y : Int) : Bool :=
  (y % 4 == 0 && y % 100 != 0) || (y % 400 == 0)

/-- Length of a month in the Gregorian calendar. -/
def daysInMonth (y m : Int) : Int :=
  if m = 2 then (if isLeapYear y then 29 else 28)
  else if m = 4 ∨ m = 6 ∨ m = 9 ∨ m = 11 then 30
  else 31

/-- datetime.datetime(year, month, day, hour, minute): validates its fields
(ValueError outside range) and is modelled by the resulting epoch seconds. -/
def dtime_mk (y m d hh mi : Int) : Except PyError Int :=
  if 1 ≤ y ∧ y ≤ 9999 ∧ 1 ≤ m ∧ m ≤ 12 ∧ 1 ≤ d ∧ d ≤ daysInMonth y m ∧
      0 ≤ hh ∧ hh ≤ 23 ∧ 0 ≤ mi ∧ mi ≤ 59 then
    .ok (civilEpoch y m d hh mi 0)
  else .error .valueError

/-- get_geos5trk_track_data's inner dtime_for_line (utils.py 367-370):
the first whitespace token is y/m/d, the second is hr:mn; missing tokens
raise IndexError, a wrong number of slash or colon fields breaks the tuple
unpacking with ValueError. -/
def dtime_for_line (line : String) : Except PyError Int :=
  match pySplitWs line with
  | [] => .error .indexError
  | tok0 :: restToks =>
      match pySplitChar tok0 '/' with
      | [ys, ms, ds] =>
          match pyInt ys, pyInt ms, pyInt ds with
          | .ok y, .ok m, .ok d =>
              match restToks with
              | [] => .error .indexError
              | tok1 :: _ =>
                  match pySplitChar tok1 ':' with
                  | [hs, mins] =>
                      match pyInt hs, pyInt mins with
                      | .ok hh, .ok mi => dtime_mk y m d hh mi
                      | _, _ => .error .valueError
                  | _ => .error .valueError
          | _, _, _ => .error .valueError
      | _ => .error .valueError

/-- The get_geos5trk_track_data readlines loop (utils.py 380-388): every
line yields an entry whose fhr is None (nature runs carry no forecast-hour
concept) and whose fcst_date is the line's own date-time. -/
def get_geos5trk_track_data_loop (start_date : Int) :
    List String → ForecastTrack → Except PyError ForecastTrack
  | [], t => .ok t
  | line :: rest, t =>
      match dtime_for_line line with
      | .error err => .error err
      | .ok fcst_date =>
          let toks := pySplitWs (pyStrip line)
          match pyIdx toks 3 with
          | .error err => .error err
          | .ok latTok =>
              match pyFloat latTok with
              | .error err => .error err
              | .ok lat =>
                  match pyIdx toks 5 with
                  | .error err => .error err
                  | .ok lonTok =>
                      match pyFloat lonTok with
                      | .error err => .error err
                      | .ok lon =>
                          match pyIdx toks 9 with
                          | .error err => .error err
                          | .ok mslpTok =>
                              match pyFloat mslpTok with
                              | .error err => .error err
                              | .ok mslp =>
                                  match pyIdx toks 13 with
                                  | .error err => .error err
                                  | .ok vmaxTok =>
                                      match pyFloat vmaxTok with
                                      | .error err => .error err
                                      | .ok vmax =>
                                          get_geos5trk_track_data_loop
                                            start_date rest
                                            (t.append_entry
                                              (mkTrackerData start_date none
                                                false lat lon mslp vmax
                                                (some fcst_date)))

/-- utils.get_geos5trk_track_data (utils.py 359-389).  The source passes the
first line's datetime to ForecastTrack, which stores it as an epoch string
via the %s format; it is modelled directly by the epoch value.  An empty
file raises IndexError on lines[0]. -/
def get_geos5trk_track_data (lines : List String) :
    Except PyError ForecastTrack :=
  match lines with
  | [] => .error .indexError
  | line0 :: _ =>
      match dtime_for_line line0 with
      | .error err => .error err
      | .ok start_date =>
          get_geos5trk_track_data_loop start_date lines
            { start_date := start_date, tracker_entries := [] }

-- B-deck ATCF index values (utils.py 405-411)
def BDECK_idxYMDH : Nat := 2
def BDECK_idxTrackType : Nat := 4
def BDECK_idxLat : Nat := 6
def BDECK_idxLon : Nat := 7
def BDECK_idxMaxwind : Nat := 8
def BDECK_idxMslp : Nat := 9

/-- The mutable state of the get_bdeck_track_data line loop: the dates whose
first wind-radius record has already been added, and the track under
construction. -/
structure BdeckState where
  added_dates : List Int
  fcst_track : ForecastTrack
  deriving Repr, DecidableEq

/-- One iteration of the get_bdeck_track_data line loop (utils.py 435-459).
A line is split on comma-space; the asserts require the latitude token to
end in N/S, the longitude token in W/E and the track-type token to be the
literal BEST; a date already added is skipped (first record per date wins);
a date before the experiment start date is skipped; otherwise the entry is
appended with fhr = (currDate - startDate) / 3600 under Python 2 floor
division, and the date recorded. -/
def get_bdeck_track_data_step (startDate : Int) (st : BdeckState)
    (line : String) : Except PyError BdeckState :=
  let toks := pySplitCommaSpace line
  match pyIdx toks BDECK_idxLat with
  | .error err => .error err
  | .ok latTok =>
      match pyLast latTok with
      | .error err => .error err
      | .ok latC =>
          if ¬(latC = 'N' ∨ latC = 'S') then .error .assertionError
          else
            match pyIdx toks BDECK_idxLon with
            | .error err => .error err
            | .ok lonTok =>
                match pyLast lonTok with
                | .error err => .error err
                | .ok lonC =>
                    if ¬(lonC = 'W' ∨ lonC = 'E') then
                      .error .assertionError
                    else
                      match pyIdx toks BDECK_idxTrackType with
                      | .error err => .error err
                      | .ok typeTok =>
                          if typeTok ≠ "BEST" then .error .assertionError
                          else
                            match pyInt (pyDropLast latTok) with
                            | .error err => .error err
                            | .ok latMag =>
                                let lat : ℚ :=
                                  if latC = 'S' then
                                    -(Rat.divInt latMag 10)
                                  else Rat.divInt latMag 10
                                match pyInt (pyDropLast lonTok) with
                                | .error err => .error err
                                | .ok lonMag =>
                                    let lon : ℚ :=
                                      if lonC = 'W' then
                                        -(Rat.divInt lonMag 10)
                                      else Rat.divInt lonMag 10
                                    match pyIdx toks BDECK_idxYMDH with
                                    | .error err => .error err
                                    | .ok dateTok =>
                                        match yyyymmddHH_to_epoch dateTok
                                          with
                                        | .error err => .error err
                                        | .ok currDate =>
                                            if currDate ∈ st.added_dates
                                              then .ok st
                                            else if currDate < startDate
                                              then .ok st
                                            else
                                              let fhr := Int.fdiv
                                                (currDate - startDate) 3600
                                              match pyIdx toks
                                                  BDECK_idxMslp with
                                              | .error err => .error err
                                              | .ok mslpTok =>
                                                match pyFloat mslpTok with
                                                | .error err => .error err
                                                | .ok mslp =>
                                                  match pyIdx toks
                                                      BDECK_idxMaxwind with
                                                  | .error err => .error err
                                                  | .ok windTok =>
                                                    match pyFloat windTok
                                                      with
                                                    | .error err =>
                                                        .error err
                                                    | .ok maxwind =>
                                                      let trackData :=
                                                        mkTrackerData
                                                          startDate
                                                          (some fhr) false
                                                          lat lon mslp
                                                          maxwind
                                                      .ok ⟨st.added_dates
                                                            ++ [currDate],
                                                        st.fcst_track.append_entry
                                                          trackData⟩

/-- The get_bdeck_track_data readlines loop. -/
def get_bdeck_track_data_loop (startDate : Int) :
    List String → BdeckState → Except PyError BdeckState
  | [], st => .ok st
  | line :: rest, st =>
      match get_bdeck_track_data_step startDate st line with
      | .error err => .error err
      | .ok st1 => get_bdeck_track_data_loop startDate rest st1

/-- utils.get_bdeck_track_data (utils.py 393-460) over the lines of the
gzip b-deck file; the storm-ID-to-file-name resolution and the gzip read
(utils.py 414-431) are the abstracted I/O producing those lines.  The track
is constructed with the supplied experiment start date. -/
def get_bdeck_track_data (lines : List String) (startDate : Int) :
    Except PyError ForecastTrack :=
  match get_bdeck_track_data_loop startDate lines
      { added_dates := [],
        fcst_track := { start_date := startDate, tracker_entries := [] } }
    with
  | .error err => .error err
  | .ok st => .ok st.fcst_track

/-- The parser a call to utils.get_track_data dispatches to. -/
inductive ParserKind where
  | nolan | gfdltrk | diapost | syndat | geos5trk | bdeck
  deriving Repr, DecidableEq

/-- utils.get_track_data (utils.py 463-517), modelled as the dispatch
decision it takes: a missing path raises; a directory is assumed to be a
b-deck; otherwise only the first line is read, stripped and
whitespace-split, and the parser is chosen by the token count
(13 nolan; 43 or 20 gfdltrk; 8 diapost; 19 or 30 syndat after raising if
stormID or startDate is absent; 16 geos5trk; anything else raises
"Unable to determine the type of ATCF").  The syndat target
get_syndat_track_data is referenced but defined nowhere in the repository
(spec section 4.2 treats SYNDAT as an external format variant selected by
the detector), so the dispatch decision itself is the modelled outcome. -/
def get_track_data (pathExists : Bool) (isDir : Bool) (lines : List String)
    (stormID : Option String := none) (startDate : Option Int := none) :
    Except PyError ParserKind :=
  if ¬pathExists then .error .exception
  else if isDir then .ok .bdeck
  else
    let lineDat := pySplitWs (pyStrip (lines.headD ""))
    if lineDat.length = 13 then .ok .nolan
    else if lineDat.length = 43 ∨ lineDat.length = 20 then .ok .gfdltrk
    else if lineDat.length = 8 then .ok .diapost
    else if lineDat.length = 19 ∨ lineDat.length = 30 then
      (if stormID = none ∨ startDate = none then .error .exception
       else .ok .syndat)
    else if lineDat.length = 16 then .ok .geos5trk
    else .error .exception

/-- C2: for every existing regular file the detector reads only the first
line, splits it on whitespace and dispatches purely on token count:
13 to the Nolan parser, 20 or 43 to the GFDL parser, 8 to the Diapost
parser, 19 or 30 to the SYNDAT parser (raising if stormID or startDate is
absent), 16 to the GEOS5 parser; every other token count raises; a
directory path is treated as a b-deck layout. -/
theorem C2_get_track_data_dispatch (line : String) (r1 r2 : List String)
    (stormID : Option String) (startDate : Option Int) :
    (get_track_data true false (line :: r1) stormID startDate =
      get_track_data true false (line :: r2) stormID startDate)
    ∧ ((pySplitWs (pyStrip line)).length = 13 →
        get_track_data true false (line :: r1) stormID startDate =
          .ok .nolan)
    ∧ ((pySplitWs (pyStrip line)).length = 20 ∨
        (pySplitWs (pyStrip line)).length = 43 →
        get_track_data true false (line :: r1) stormID startDate =
          .ok .gfdltrk)
    ∧ ((pySplitWs (pyStrip line)).length = 8 →
        get_track_data true false (line :: r1) stormID startDate =
          .ok .diapost)
    ∧ ((pySplitWs (pyStrip line)).length = 19 ∨
        (pySplitWs (pyStrip line)).length = 30 →
        ((stormID = none ∨ startDate = none →
          get_track_data true false (line :: r1) stormID startDate =
            .error .exception)
         ∧ (stormID ≠ none → startDate ≠ none →
            get_track_data true false (line :: r1) stormID startDate =
              .ok .syndat)))
    ∧ ((pySplitWs (pyStrip line)).length = 16 →
        get_track_data true false (line :: r1) stormID startDate =
          .ok .geos5trk)
    ∧ (¬(pySplitWs (pyStrip line)).length ∈ [13, 20, 43, 8, 19, 30, 16] →
        get_track_data true false (line :: r1) stormID startDate =
          .error .exception)
    ∧ (get_track_data true true (line :: r1) stormID startDate =
        .ok .bdeck) := by
  refine ⟨rfl, ?_, ?_, ?_, ?_, ?_, ?_, rfl⟩
  · intro h; simp [get_track_data, h]
  · intro h
    rcases h with h | h <;> simp [get_track_data, h]
  · intro h; simp [get_track_data, h]
  · intro h
    constructor
    · intro hmiss
      rcases h with h | h <;> rcases hmiss with hm | hm <;>
        simp [get_track_data, h, hm]
    · intro h1 h2
      rcases h with h | h <;> simp [get_track_data, h, h1, h2]
  · intro h; simp [get_track_data, h]
  · intro h
    simp only [List.mem_cons, List.not_mem_nil, or_false, not_or] at h
    obtain ⟨h13, h20, h43, h8, h19, h30, h16⟩ := h
    simp [get_track_data, h13, h20, h43, h8, h19, h30, h16]

/-- Witness for C2 at concrete inputs: an 8-token first line routes to the
Diapost parser and a 3-token first line raises. -/
theorem C2_get_track_data_dispatch_witness :
    get_track_data true false ["a b c d e f g h"] none none =
      .ok .diapost ∧
    get_track_data true false ["1 2 3"] none none = .error .exception :=
  ⟨(C2_get_track_data_dispatch "a b c d e f g h" [] [] none none).2.2.2.1
      (by decide),
   (C2_get_track_data_dispatch "1 2 3" [] [] none
      none).2.2.2.2.2.2.1 (by decide)⟩

/-- C1: with alignByAbsoluteTime=false the differencer is supposed to align
by forecastOffsetHours, but the source executes the broken expressions
self.track_two.fhr_dict() (fhr_dict is a @property, so the returned dict is
called) and trkTwoDict.has_key[...] (a method subscripted), so any pair of
tracks whose first track is nonempty raises TypeError.  Here two one-entry
tracks whose reference epochs differ by a constant offset and whose by-hour
pairing is well defined (the fhr_dict lookup succeeds) still produce
TypeError. -/
theorem C1_fhr_alignment_type_error :
    pyDictGet
        (ForecastTrack.fhr_dict
          { start_date := 7200,
            tracker_entries := [mkTrackerData 7200 (some 0) false 11 21 995
              55] })
        (some 0) = some (mkTrackerData 7200 (some 0) false 11 21 995 55)
    ∧ ForecastTrackDiff_tracker_entries
        { start_date := 0,
          tracker_entries := [mkTrackerData 0 (some 0) false 10 20 990 50] }
        { start_date := 7200,
          tracker_entries := [mkTrackerData 7200 (some 0) false 11 21 995
            55] }
        false = .error .typeError :=
  ⟨by decide, rfl⟩


/-- absolute_times_dict_aux only ever fails with TypeError. -/
theorem absolute_times_dict_aux_error (sd : Int) (l : List TrackerData) :
    (∃ d, absolute_times_dict_aux sd l = .ok d) ∨
    absolute_times_dict_aux sd l = .error .typeError := by
  induction l with
  | nil => exact .inl ⟨[], rfl⟩
  | cons e rest ih =>
      cases hf : e.fhr with
      | none => exact .inr (by simp [absolute_times_dict_aux, hf])
      | some h =>
          rcases ih with ⟨d, hd⟩ | hd
          · exact .inl ⟨(sd + h * 3600, e) :: d,
              by simp [absolute_times_dict_aux, hf, hd]⟩
          · exact .inr (by simp [absolute_times_dict_aux, hf, hd])

/-- A leading fhr-less entry makes absolute_times_dict fail with
TypeError. -/
theorem absolute_times_dict_aux_none (sd : Int) (e : TrackerData)
    (l : List TrackerData) (hf : e.fhr = none) :
    absolute_times_dict_aux sd (e :: l) = .error .typeError := by
  simp [absolute_times_dict_aux, hf]

/-- Entries appended by the GEOS5 loop all carry fhr = none. -/
theorem get_geos5trk_track_data_loop_fhr_none (sd : Int)
    (lines : List String) :
    ∀ t0 t : ForecastTrack,
      get_geos5trk_track_data_loop sd lines t0 = .ok t →
      ∀ e ∈ t.tracker_entries,
        e ∈ t0.tracker_entries ∨ e.fhr = none := by
  induction lines with
  | nil =>
      intro t0 t h e he
      cases h
      exact .inl he
  | cons line rest ih =>
      intro t0 t h e he
      rw [get_geos5trk_track_data_loop] at h
      split at h
      · exact Except.noConfusion h
      dsimp only at h
      split at h
      · exact Except.noConfusion h
      split at h
      · exact Except.noConfusion h
      split at h
      · exact Except.noConfusion h
      split at h
      · exact Except.noConfusion h
      split at h
      · exact Except.noConfusion h
      split at h
      · exact Except.noConfusion h
      split at h
      · exact Except.noConfusion h
      split at h
      · exact Except.noConfusion h
      rcases ih _ _ h e he with hmem | hnone
      · simp only [ForecastTrack.append_entry, List.mem_append,
          List.mem_singleton] at hmem
        rcases hmem with hm | rfl
        · exact .inl hm
        · exact .inr rfl
      · exact .inr hnone

/-- C9: every observation produced by the GEOS5 nature-run parser has
forecastOffsetHours = None, so get_fhr_epoch has no defined result, the
epoch-to-observation map construction fails with TypeError, and a nonempty
GEOS5 track can be diffed in the default absolute-time alignment mode
neither as the first nor as the second track, even though each observation
carries an absolute forecast timestamp. -/
theorem C9_geos5_fhr_none_blocks_diff (lines : List String)
    (t : ForecastTrack) (h : get_geos5trk_track_data lines = .ok t) :
    (∀ e ∈ t.tracker_entries, e.fhr = none ∧ e.get_fhr_epoch = none)
    ∧ (t.tracker_entries ≠ [] →
        t.absolute_times_dict = .error .typeError)
    ∧ (∀ t1 : ForecastTrack, t1.tracker_entries ≠ [] →
        t.tracker_entries ≠ [] →
        ForecastTrackDiff_tracker_entries t1 t = .error .typeError)
    ∧ (t.tracker_entries ≠ [] → ∀ t2 : ForecastTrack,
        ForecastTrackDiff_tracker_entries t t2 = .error .typeError) := by
  have hnone : ∀ e ∈ t.tracker_entries, e.fhr = none := by
    intro e he
    rcases lines with _ | ⟨line0, rest⟩
    · simp [get_geos5trk_track_data] at h
    · rw [get_geos5trk_track_data] at h
      split at h
      · exact Except.noConfusion h
      · rcases get_geos5trk_track_data_loop_fhr_none _ _ _ _ h e he with
          hmem | hn
        · simp at hmem
        · exact hn
  have hatd : t.tracker_entries ≠ [] →
      t.absolute_times_dict = .error .typeError := by
    intro hne
    rcases hl : t.tracker_entries with _ | ⟨e, rest⟩
    · exact absurd hl hne
    · have hf : e.fhr = none := hnone e (by rw [hl]; exact List.mem_cons_self e rest)
      unfold ForecastTrack.absolute_times_dict
      rw [hl]
      exact absolute_times_dict_aux_none _ e rest hf
  refine ⟨?_, hatd, ?_, ?_⟩
  · intro e he
    refine ⟨hnone e he, ?_⟩
    simp [TrackerData.get_fhr_epoch, hnone e he]
  · intro t1 h1 hne
    rcases hl1 : t1.tracker_entries with _ | ⟨e1, rest1⟩
    · exact absurd hl1 h1
    unfold ForecastTrackDiff_tracker_entries
    rw [hl1]
    simp [_get_track_diffs_loop, hatd hne]
  · intro hne t2
    rcases hl : t.tracker_entries with _ | ⟨e, rest⟩
    · exact absurd hl hne
    have hefhr : e.fhr = none := hnone e (by rw [hl]; exact List.mem_cons_self e rest)
    unfold ForecastTrackDiff_tracker_entries
    rw [hl]
    rcases absolute_times_dict_aux_error t2.start_date t2.tracker_entries
        with ⟨d, hd⟩ | herr
    · have hok : t2.absolute_times_dict = .ok d := hd
      simp [_get_track_diffs_loop, hok, TrackerData.get_fhr_epoch, hefhr]
    · have herr2 : t2.absolute_times_dict = .error .typeError := herr
      simp [_get_track_diffs_loop, herr2]

/-- Witness for C9: a one-line GEOS5 nature-run file parses to a track with
an fhr-less observation, and diffing that track against itself in the
default absolute-time mode raises TypeError. -/
theorem C9_geos5_fhr_none_blocks_diff_witness :
    get_geos5trk_track_data
        ["2006/09/12 03:30 ; 34.5000 ; 273.750 ; 0 ; 1001.50 ; 75.3543 ; 32.8331 ; 40.5677"] =
      .ok { start_date := 1158031800,
            tracker_entries := [mkTrackerData 1158031800 none false
              (Rat.divInt 345000 10000) (Rat.divInt 273750 1000)
              (Rat.divInt 100150 100) (Rat.divInt 328331 10000)
              (some 1158031800)] }
    ∧ ForecastTrackDiff_tracker_entries
        { start_date := 1158031800,
          tracker_entries := [mkTrackerData 1158031800 none false
            (Rat.divInt 345000 10000) (Rat.divInt 273750 1000)
            (Rat.divInt 100150 100) (Rat.divInt 328331 10000)
            (some 1158031800)] }
        { start_date := 1158031800,
          tracker_entries := [mkTrackerData 1158031800 none false
            (Rat.divInt 345000 10000) (Rat.divInt 273750 1000)
            (Rat.divInt 100150 100) (Rat.divInt 328331 10000)
            (some 1158031800)] } = .error .typeError := by
  have hp : get_geos5trk_track_data
      ["2006/09/12 03:30 ; 34.5000 ; 273.750 ; 0 ; 1001.50 ; 75.3543 ; 32.8331 ; 40.5677"] =
      .ok { start_date := 1158031800,
            tracker_entries := [mkTrackerData 1158031800 none false
              (Rat.divInt 345000 10000) (Rat.divInt 273750 1000)
              (Rat.divInt 100150 100) (Rat.divInt 328331 10000)
              (some 1158031800)] } := by decide
  exact ⟨hp, (C9_geos5_fhr_none_blocks_diff _ _ hp).2.2.2 (by decide) _⟩

/-- Full case analysis of one GFDL line-loop iteration: either the line is
skipped with the state unchanged (wrong token count, duplicate forecast
hour, or beyond the duration cap), or it is processed, in which case the
forecast hour (floor-divided by 100 on 20-token fort.69 lines) is recorded
as processed, the start date is overwritten from token 2, a literal "0"
latitude token flags the hour and zeroes every value, and the entry is
appended exactly when include_flagged_entries or the entry is unflagged. -/
theorem gfdl_step_spec (inc : Bool) (dur : Option ℚ) (st st' : GfdlState)
    (line : String)
    (hstep : get_gfdltrk_track_data_step inc dur st line = .ok st') :
    (st' = st ∧
      (¬(((pySplitChar line ',').map pyStrip).length = 43 ∨
         ((pySplitChar line ',').map pyStrip).length = 20) ∨
       ∃ fhr0 fhr, pyInt (((pySplitChar line ',').map pyStrip).getD
           GFDLTRK_TRACK_FILE_FHR_IDX "") = .ok fhr0 ∧
         fhr = (if ((pySplitChar line ',').map pyStrip).length = 20 then
           Int.fdiv fhr0 100 else fhr0) ∧
         (fhr ∈ st.processed_fhrs ∨ durationSkip dur fhr = true)))
    ∨ ∃ fhr0 fhr sd flagged lat lon mslp wind,
      (((pySplitChar line ',').map pyStrip).length = 43 ∨
       ((pySplitChar line ',').map pyStrip).length = 20) ∧
      pyInt (((pySplitChar line ',').map pyStrip).getD
        GFDLTRK_TRACK_FILE_FHR_IDX "") = .ok fhr0 ∧
      fhr = (if ((pySplitChar line ',').map pyStrip).length = 20 then
        Int.fdiv fhr0 100 else fhr0) ∧
      yyyymmddHH_to_epoch (((pySplitChar line ',').map pyStrip).getD
        GFDLTRK_TRACK_FILE_START_DATE_IDX "") = .ok sd ∧
      fhr ∉ st.processed_fhrs ∧
      durationSkip dur fhr = false ∧
      st'.processed_fhrs = st.processed_fhrs ++ [fhr] ∧
      st'.flagged_fhrs =
        (if ((pySplitChar line ',').map pyStrip).getD
            GFDLTRK_TRACK_FILE_LAT_IDX "" = "0" then
          st.flagged_fhrs ++ [fhr]
         else st.flagged_fhrs) ∧
      st'.cycle_track.start_date = sd ∧
      flagged = (if ((pySplitChar line ',').map pyStrip).getD
          GFDLTRK_TRACK_FILE_LAT_IDX "" = "0" then true
        else decide (fhr ∈ st.flagged_fhrs)) ∧
      (((pySplitChar line ',').map pyStrip).getD
          GFDLTRK_TRACK_FILE_LAT_IDX "" = "0" →
        flagged = true ∧ lat = 0 ∧ lon = 0 ∧ mslp = 0 ∧ wind = 0) ∧
      (((inc || !flagged) = true ∧
        st'.cycle_track.tracker_entries =
          st.cycle_track.tracker_entries ++
            [mkTrackerData sd (some fhr) flagged lat lon mslp wind]) ∨
       ((inc || !flagged) = false ∧
        st'.cycle_track.tracker_entries =
          st.cycle_track.tracker_entries)) := by
  rw [get_gfdltrk_track_data_step] at hstep
  dsimp only at hstep
  split at hstep
  · rename_i hbad
    cases hstep
    exact .inl ⟨rfl, .inl hbad⟩
  rename_i hlen
  rw [not_not] at hlen
  split at hstep
  · exact Except.noConfusion hstep
  rename_i fhr0 hfhr0
  generalize hF : (if ((pySplitChar line ',').map pyStrip).length = 20 then
    Int.fdiv fhr0 100 else fhr0) = fhr at hstep
  split at hstep
  · rename_i hdup
    cases hstep
    exact .inl ⟨rfl, .inr ⟨fhr0, fhr, hfhr0, hF.symm, .inl hdup⟩⟩
  rename_i hnotdup
  split at hstep
  · rename_i hdur
    cases hstep
    exact .inl ⟨rfl, .inr ⟨fhr0, fhr, hfhr0, hF.symm, .inr hdur⟩⟩
  rename_i hdurok
  split at hstep
  · exact Except.noConfusion hstep
  rename_i sd hsd
  by_cases hz : ((pySplitChar line ',').map pyStrip).getD
      GFDLTRK_TRACK_FILE_LAT_IDX "" = "0"
  · simp only [if_pos hz] at hstep
    have e1 : pyInt (pyDropLast "000N") = .ok 0 := by decide
    have e2 : pyLast "000N" = .ok 'N' := by decide
    have e3 : pyInt (pyDropLast "000E") = .ok 0 := by decide
    have e4 : pyLast "000E" = .ok 'E' := by decide
    have e5 : pyFloat "0" = .ok 0 := by decide
    rw [e1, e2, e3, e4] at hstep
    dsimp only at hstep
    rw [e5] at hstep
    dsimp only at hstep
    split at hstep
    · rename_i hinc
      cases hstep
      refine .inr ⟨fhr0, fhr, sd, true,
        (if 'N' = 'S' then -(Rat.divInt 0 10) else Rat.divInt 0 10),
        (if 'E' = 'W' then -(Rat.divInt 0 10) else Rat.divInt 0 10),
        0, 0,
        hlen, hfhr0, hF.symm, hsd, hnotdup, (by simpa using hdurok),
        rfl, by rw [if_pos hz], rfl, by rw [if_pos hz], ?_,
        .inl ⟨hinc, rfl⟩⟩
      exact fun _ => ⟨rfl, by decide, by decide, rfl, rfl⟩
    · rename_i hninc
      cases hstep
      refine .inr ⟨fhr0, fhr, sd, true, 0, 0, 0, 0,
        hlen, hfhr0, hF.symm, hsd, hnotdup, (by simpa using hdurok),
        rfl, by rw [if_pos hz], rfl, by rw [if_pos hz],
        fun _ => ⟨rfl, rfl, rfl, rfl, rfl⟩,
        .inr ⟨by simpa using hninc, rfl⟩⟩
  · simp only [if_neg hz] at hstep
    split at hstep
    · exact Except.noConfusion hstep
    rename_i latMag hlatMag
    split at hstep
    · exact Except.noConfusion hstep
    rename_i latSign hlatSign
    split at hstep
    · exact Except.noConfusion hstep
    rename_i lonMag hlonMag
    split at hstep
    · exact Except.noConfusion hstep
    rename_i lonSign hlonSign
    split at hstep
    · rename_i hinc
      split at hstep
      · exact Except.noConfusion hstep
      · exact Except.noConfusion hstep
      rename_i mslp wind hmslp hwind
      cases hstep
      refine .inr ⟨fhr0, fhr, sd, decide (fhr ∈ st.flagged_fhrs),
        (if latSign = 'S' then -(Rat.divInt latMag 10)
         else Rat.divInt latMag 10),
        (if lonSign = 'W' then -(Rat.divInt lonMag 10)
         else Rat.divInt lonMag 10),
        mslp, wind,
        hlen, hfhr0, hF.symm, hsd, hnotdup, (by simpa using hdurok),
        rfl, by rw [if_neg hz], rfl, by rw [if_neg hz],
        fun hzz => absurd hzz hz, .inl ⟨hinc, rfl⟩⟩
    · rename_i hninc
      cases hstep
      refine .inr ⟨fhr0, fhr, sd, decide (fhr ∈ st.flagged_fhrs),
        0, 0, 0, 0,
        hlen, hfhr0, hF.symm, hsd, hnotdup, (by simpa using hdurok),
        rfl, by rw [if_neg hz], rfl, by rw [if_neg hz],
        fun hzz => absurd hzz hz, .inr ⟨by simpa using hninc, rfl⟩⟩

/-- A line whose comma token count is neither 43 nor 20 is skipped by the
GFDL loop with the state unchanged. -/
theorem gfdl_step_skip (inc : Bool) (dur : Option ℚ) (st : GfdlState)
    (line : String)
    (h : ¬(((pySplitChar line ',').map pyStrip).length = 43 ∨
           ((pySplitChar line ',').map pyStrip).length = 20)) :
    get_gfdltrk_track_data_step inc dur st line = .ok st := by
  rw [get_gfdltrk_track_data_step]
  dsimp only
  rw [if_pos h]

/-- A file all of whose lines have a bad token count leaves the GFDL state
unchanged. -/
theorem gfdl_loop_all_skipped (inc : Bool) (dur : Option ℚ)
    (lines : List String)
    (h : ∀ line ∈ lines,
      ¬(((pySplitChar line ',').map pyStrip).length = 43 ∨
        ((pySplitChar line ',').map pyStrip).length = 20)) :
    ∀ st : GfdlState,
      get_gfdltrk_track_data_loop inc dur lines st = .ok st := by
  induction lines with
  | nil => intro st; rfl
  | cons line rest ih =>
      intro st
      rw [get_gfdltrk_track_data_loop,
        gfdl_step_skip inc dur st line (h line (List.mem_cons_self line rest))]
      exact ih (fun l hl => h l (List.mem_cons_of_mem line hl)) st

/-- A line whose whitespace token count is not 8 is skipped by the Diapost
loop with the track unchanged. -/
theorem diapost_step_skip (inc : Bool) (dur : Option ℚ)
    (nswe : Option (Option ℚ × Option ℚ × Option ℚ × Option ℚ))
    (track : ForecastTrack) (line : String)
    (h : (pySplitWs line).length ≠ 8) :
    get_diapost_track_data_step inc dur nswe track line = .ok track := by
  rw [get_diapost_track_data_step]
  dsimp only
  rw [if_pos h]

/-- A file all of whose lines have a bad token count leaves the Diapost
track unchanged. -/
theorem diapost_loop_all_skipped (inc : Bool) (dur : Option ℚ)
    (nswe : Option (Option ℚ × Option ℚ × Option ℚ × Option ℚ))
    (lines : List String)
    (h : ∀ line ∈ lines, (pySplitWs line).length ≠ 8) :
    ∀ track : ForecastTrack,
      get_diapost_track_data_loop inc dur nswe lines track = .ok track := by
  induction lines with
  | nil => intro track; rfl
  | cons line rest ih =>
      intro track
      rw [get_diapost_track_data_loop,
        diapost_step_skip inc dur nswe track line
          (h line (List.mem_cons_self line rest))]
      exact ih (fun l hl => h l (List.mem_cons_of_mem line hl)) track

/-- C8: a line whose token count does not match the parser's expected shape
(8 whitespace tokens for Diapost, 20 or 43 comma tokens for GFDL) is
skipped without aborting the parse, and a file in which no line matches
still returns a Track with zero observations (and the placeholder reference
epoch -1) rather than raising. -/
theorem C8_malformed_lines_skipped :
    (∀ (inc : Bool) (dur : Option ℚ)
      (nswe : Option (Option ℚ × Option ℚ × Option ℚ × Option ℚ))
      (track : ForecastTrack) (line : String) (rest : List String),
      (pySplitWs line).length ≠ 8 →
      get_diapost_track_data_loop inc dur nswe (line :: rest) track =
        get_diapost_track_data_loop inc dur nswe rest track)
    ∧ (∀ (inc : Bool) (dur : Option ℚ) (st : GfdlState) (line : String)
      (rest : List String),
      ¬(((pySplitChar line ',').map pyStrip).length = 43 ∨
        ((pySplitChar line ',').map pyStrip).length = 20) →
      get_gfdltrk_track_data_loop inc dur (line :: rest) st =
        get_gfdltrk_track_data_loop inc dur rest st)
    ∧ (∀ lines : List String,
      (∀ line ∈ lines, (pySplitWs line).length ≠ 8) →
      ∀ (inc : Bool) (dur : Option ℚ)
        (nswe : Option (Option ℚ × Option ℚ × Option ℚ × Option ℚ)),
        get_diapost_track_data lines inc dur nswe =
          .ok { start_date := -1, tracker_entries := [] })
    ∧ (∀ lines : List String,
      (∀ line ∈ lines,
        ¬(((pySplitChar line ',').map pyStrip).length = 43 ∨
          ((pySplitChar line ',').map pyStrip).length = 20)) →
      ∀ (sideFile : Option (List Int)) (inc : Bool) (dur : Option ℚ),
        get_gfdltrk_track_data lines sideFile inc dur =
          .ok { start_date := -1, tracker_entries := [] }) := by
  refine ⟨?_, ?_, ?_, ?_⟩
  · intro inc dur nswe track line rest h
    rw [get_diapost_track_data_loop,
      diapost_step_skip inc dur nswe track line h]
  · intro inc dur st line rest h
    rw [get_gfdltrk_track_data_loop, gfdl_step_skip inc dur st line h]
  · intro lines h inc dur nswe
    rw [get_diapost_track_data,
      diapost_loop_all_skipped inc dur nswe lines h]
  · intro lines h sideFile inc dur
    rw [get_gfdltrk_track_data.eq_def]
    dsimp only
    rw [gfdl_loop_all_skipped inc dur lines h]

/-- Witness for C8: a Diapost file with one 3-token line and a GFDL file
with one 2-token line both return empty tracks. -/
theorem C8_malformed_lines_skipped_witness :
    get_diapost_track_data ["bad line here"] =
      .ok { start_date := -1, tracker_entries := [] } ∧
    get_gfdltrk_track_data ["bad, line"] =
      .ok { start_date := -1, tracker_entries := [] } :=
  ⟨C8_malformed_lines_skipped.2.2.1 ["bad line here"] (by decide)
    false none none,
   C8_malformed_lines_skipped.2.2.2 ["bad, line"] (by decide)
    none false none⟩

/-- C6: on a 20-token (fort.69-style) GFDL line the observation produced
gets forecastOffsetHours = raw forecast-hour field divided by 100 under
Python 2 floor division (raw "600" gives 6); on a 43-token (fort.64-style)
line the raw field is used undivided; a line with any other token count is
logged and skipped, leaving the state unchanged. -/
theorem C6_gfdltrk_fort69_fhr_division (inc : Bool) (dur : Option ℚ)
    (st st' : GfdlState) (line : String) (r : Int)
    (hr : pyInt (((pySplitChar line ',').map pyStrip).getD
      GFDLTRK_TRACK_FILE_FHR_IDX "") = .ok r)
    (hstep : get_gfdltrk_track_data_step inc dur st line = .ok st') :
    (((pySplitChar line ',').map pyStrip).length = 20 →
      ∀ e ∈ st'.cycle_track.tracker_entries,
        e ∉ st.cycle_track.tracker_entries →
        e.fhr = some (Int.fdiv r 100))
    ∧ (((pySplitChar line ',').map pyStrip).length = 43 →
      ∀ e ∈ st'.cycle_track.tracker_entries,
        e ∉ st.cycle_track.tracker_entries → e.fhr = some r)
    ∧ (¬(((pySplitChar line ',').map pyStrip).length = 43 ∨
         ((pySplitChar line ',').map pyStrip).length = 20) → st' = st) := by
  rcases gfdl_step_spec inc dur st st' line hstep with
    ⟨rfl, _⟩ | ⟨fhr0, fhr, sd, flagged, lat, lon, mslp, wind, hlen, hfhr0,
      hFdef, hsd, _, _, _, _, _, _, _, hbranch⟩
  · exact ⟨fun _ e he hne => absurd he hne,
      fun _ e he hne => absurd he hne, fun _ => rfl⟩
  · have hr0 : fhr0 = r := Except.ok.inj (hfhr0.symm.trans hr)
    subst hr0
    refine ⟨?_, ?_, fun hbad => absurd hlen hbad⟩
    · intro h20 e he hne
      rcases hbranch with ⟨_, hents⟩ | ⟨_, hents⟩
      · rw [hents] at he
        rcases List.mem_append.mp he with hm | hm
        · exact absurd hm hne
        · rw [List.mem_singleton.mp hm]
          rw [hFdef, if_pos h20]
          rfl
      · rw [hents] at he
        exact absurd he hne
    · intro h43 e he hne
      have hn20 : ¬((pySplitChar line ',').map pyStrip).length = 20 := by
        rw [h43]; decide
      rcases hbranch with ⟨_, hents⟩ | ⟨_, hents⟩
      · rw [hents] at he
        rcases List.mem_append.mp he with hm | hm
        · exact absurd hm hne
        · rw [List.mem_singleton.mp hm]
          rw [hFdef, if_neg hn20]
          rfl
      · rw [hents] at he
        exact absurd he hne

/-- Witness for C6: a concrete 20-token fort.69 line with raw forecast-hour
field 600 produces an observation with forecastOffsetHours 6. -/
theorem C6_gfdltrk_fort69_fhr_division_witness :
    get_gfdltrk_track_data_step false none
      { flagged_fhrs := [], processed_fhrs := [],
        cycle_track := { start_date := -1, tracker_entries := [] } }
      "AL, 09, 2005080100, 03, HWRF, 600, 167N, 400W, 75, 998, a, b, c, d, e, f, g, h, i, j" =
      .ok { flagged_fhrs := [],
            processed_fhrs := [6],
            cycle_track :=
              { start_date := 1122854400,
                tracker_entries :=
                  [mkTrackerData 1122854400 (some 6) false
                    (Rat.divInt 167 10) (-(Rat.divInt 400 10))
                    (Rat.divInt 998 1) (Rat.divInt 75 1)] } }
    ∧ (mkTrackerData 1122854400 (some 6) false (Rat.divInt 167 10)
        (-(Rat.divInt 400 10)) (Rat.divInt 998 1) (Rat.divInt 75 1)).fhr =
      some (Int.fdiv 600 100) := by
  have hs : get_gfdltrk_track_data_step false none
      { flagged_fhrs := [], processed_fhrs := [],
        cycle_track := { start_date := -1, tracker_entries := [] } }
      "AL, 09, 2005080100, 03, HWRF, 600, 167N, 400W, 75, 998, a, b, c, d, e, f, g, h, i, j" =
      .ok { flagged_fhrs := [],
            processed_fhrs := [6],
            cycle_track :=
              { start_date := 1122854400,
                tracker_entries :=
                  [mkTrackerData 1122854400 (some 6) false
                    (Rat.divInt 167 10) (-(Rat.divInt 400 10))
                    (Rat.divInt 998 1) (Rat.divInt 75 1)] } } := by decide
  refine ⟨hs, ?_⟩
  exact (C6_gfdltrk_fort69_fhr_division false none _ _ _ 600 (by decide)
    hs).1 (by decide) _ (by decide) (by decide)

/-- Once a forecast hour is recorded as processed and every current entry
with that hour is flagged, the rest of the GFDL loop keeps it that way: a
duplicate of the hour is skipped, so no unflagged observation with that
hour can ever appear. -/
theorem gfdl_loop_flagged_invariant (inc : Bool) (dur : Option ℚ)
    (lines : List String) :
    ∀ st st' : GfdlState,
      get_gfdltrk_track_data_loop inc dur lines st = .ok st' →
      ∀ h : Int, h ∈ st.processed_fhrs →
      (∀ e ∈ st.cycle_track.tracker_entries, e.fhr = some h →
        e.flagged = true) →
      h ∈ st'.processed_fhrs ∧
      ∀ e ∈ st'.cycle_track.tracker_entries, e.fhr = some h →
        e.flagged = true := by
  induction lines with
  | nil => intro st st' hp h hmem hinv; cases hp; exact ⟨hmem, hinv⟩
  | cons line rest ih =>
      intro st st' hp h hmem hinv
      rw [get_gfdltrk_track_data_loop] at hp
      split at hp
      · exact Except.noConfusion hp
      rename_i st1 hstep
      rcases gfdl_step_spec inc dur st st1 line hstep with ⟨rfl, _⟩ |
        ⟨fhr0, fhr, sd, flagged, lat, lon, mslp, wind, _, _, _, _, hnd, _,
          hproc, _, _, hflag, _, hbranch⟩
      · exact ih st1 st' hp h hmem hinv
      · apply ih st1 st' hp h
        · rw [hproc]; exact List.mem_append.mpr (.inl hmem)
        · intro e he hef
          rcases hbranch with ⟨_, hents⟩ | ⟨_, hents⟩
          · rw [hents] at he
            rcases List.mem_append.mp he with hm | hm
            · exact hinv e hm hef
            · rw [List.mem_singleton.mp hm] at hef
              have hfe : fhr = h := by simpa [mkTrackerData] using hef
              exact absurd (by rw [hfe]; exact hmem) hnd
          · rw [hents] at he
            exact hinv e he hef

/-- Forecast hours present in flagged_fhrs stay there, and any appended
entry whose hour is among them comes out flagged. -/
theorem gfdl_loop_sidefile_invariant (inc : Bool) (dur : Option ℚ)
    (lines : List String) :
    ∀ st st' : GfdlState,
      get_gfdltrk_track_data_loop inc dur lines st = .ok st' →
      ∀ L : List Int, (∀ x ∈ L, x ∈ st.flagged_fhrs) →
      (∀ e ∈ st.cycle_track.tracker_entries, ∀ x ∈ L, e.fhr = some x →
        e.flagged = true) →
      (∀ x ∈ L, x ∈ st'.flagged_fhrs) ∧
      (∀ e ∈ st'.cycle_track.tracker_entries, ∀ x ∈ L, e.fhr = some x →
        e.flagged = true) := by
  induction lines with
  | nil => intro st st' hp L hsub hinv; cases hp; exact ⟨hsub, hinv⟩
  | cons line rest ih =>
      intro st st' hp L hsub hinv
      rw [get_gfdltrk_track_data_loop] at hp
      split at hp
      · exact Except.noConfusion hp
      rename_i st1 hstep
      rcases gfdl_step_spec inc dur st st1 line hstep with ⟨rfl, _⟩ |
        ⟨fhr0, fhr, sd, flagged, lat, lon, mslp, wind, _, _, _, _, _, _,
          _, hflfhrs, _, hflag, _, hbranch⟩
      · exact ih st1 st' hp L hsub hinv
      · apply ih st1 st' hp L
        · intro x hx
          rw [hflfhrs]
          split
          · exact List.mem_append.mpr (.inl (hsub x hx))
          · exact hsub x hx
        · intro e he x hx hef
          rcases hbranch with ⟨_, hents⟩ | ⟨_, hents⟩
          · rw [hents] at he
            rcases List.mem_append.mp he with hm | hm
            · exact hinv e hm x hx hef
            · rw [List.mem_singleton.mp hm] at hef ⊢
              have hfe : fhr = x := by simpa [mkTrackerData] using hef
              have hmemfl : fhr ∈ st.flagged_fhrs := by
                rw [hfe]; exact hsub x hx
              show (mkTrackerData sd (some fhr) flagged lat lon mslp
                wind).flagged = true
              have : flagged = true := by
                rw [hflag]
                split
                · rfl
                · simpa using hmemfl
              simp [mkTrackerData, this]
          · rw [hents] at he
            exact hinv e he x hx hef

/-- C3: a GFDL line (20 or 43 tokens) whose latitude token is the literal
"0", parsed with includeFlaggedEntries=true while its forecast hour is
fresh and within the duration cap, appends an observation with
flagged=true and latitude, longitude, pressure and wind all zero
regardless of the other fields; the forecast hour joins both the flagged
set and the processed set, so in any continuation of the parse every
observation carrying that hour is flagged (a recurrence of the hour is
skipped as a duplicate and never yields an unflagged observation). -/
theorem C3_gfdl_zero_latitude_flagged (dur : Option ℚ)
    (st st' : GfdlState) (line : String) (r sd : Int)
    (hz : ((pySplitChar line ',').map pyStrip).getD
      GFDLTRK_TRACK_FILE_LAT_IDX "" = "0")
    (hlen : ((pySplitChar line ',').map pyStrip).length = 43 ∨
      ((pySplitChar line ',').map pyStrip).length = 20)
    (hr : pyInt (((pySplitChar line ',').map pyStrip).getD
      GFDLTRK_TRACK_FILE_FHR_IDX "") = .ok r)
    (hsd : yyyymmddHH_to_epoch (((pySplitChar line ',').map pyStrip).getD
      GFDLTRK_TRACK_FILE_START_DATE_IDX "") = .ok sd)
    (hnd : (if ((pySplitChar line ',').map pyStrip).length = 20 then
      Int.fdiv r 100 else r) ∉ st.processed_fhrs)
    (hdur : durationSkip dur
      (if ((pySplitChar line ',').map pyStrip).length = 20 then
        Int.fdiv r 100 else r) = false)
    (hstep : get_gfdltrk_track_data_step true dur st line = .ok st') :
    st'.cycle_track.tracker_entries =
      st.cycle_track.tracker_entries ++
        [mkTrackerData sd
          (some (if ((pySplitChar line ',').map pyStrip).length = 20 then
            Int.fdiv r 100 else r)) true 0 0 0 0]
    ∧ st'.flagged_fhrs = st.flagged_fhrs ++
        [if ((pySplitChar line ',').map pyStrip).length = 20 then
          Int.fdiv r 100 else r]
    ∧ st'.processed_fhrs = st.processed_fhrs ++
        [if ((pySplitChar line ',').map pyStrip).length = 20 then
          Int.fdiv r 100 else r]
    ∧ (∀ (rest : List String) (st'' : GfdlState),
        get_gfdltrk_track_data_loop true dur rest st' = .ok st'' →
        (∀ e ∈ st.cycle_track.tracker_entries,
          e.fhr = some (if ((pySplitChar line ',').map pyStrip).length = 20
            then Int.fdiv r 100 else r) → e.flagged = true) →
        ∀ e ∈ st''.cycle_track.tracker_entries,
          e.fhr = some (if ((pySplitChar line ',').map pyStrip).length = 20
            then Int.fdiv r 100 else r) → e.flagged = true) := by
  rcases gfdl_step_spec true dur st st' line hstep with ⟨_, hreason⟩ |
    ⟨fhr0, fhr, sd0, flagged, lat, lon, mslp, wind, _, hfhr0, hFdef, hsd0,
      _, _, hproc, hflfhrs, _, hflag, hzero, hbranch⟩
  · exfalso
    rcases hreason with hbad | ⟨fhr0, fhr, hfhr0, hFdef, hmem | hdur2⟩
    · exact hbad hlen
    · have h0 : fhr0 = r := Except.ok.inj (hfhr0.symm.trans hr)
      subst h0
      exact hnd (hFdef ▸ hmem)
    · have h0 : fhr0 = r := Except.ok.inj (hfhr0.symm.trans hr)
      subst h0
      rw [← hFdef] at hdur
      exact absurd (hdur.symm.trans hdur2) (by decide)
  · have h0 : fhr0 = r := Except.ok.inj (hfhr0.symm.trans hr)
    subst h0
    have hsame : sd0 = sd := Except.ok.inj (hsd0.symm.trans hsd)
    subst hsame
    obtain ⟨hfl, hlat, hlon, hmslp, hwind⟩ := hzero hz
    subst hfl hlat hlon hmslp hwind
    rcases hbranch with ⟨_, hents⟩ | ⟨habs, _⟩
    · subst hFdef
      refine ⟨hents, ?_, hproc, ?_⟩
      · rw [hflfhrs, if_pos hz]
      · intro rest st'' hloop hpre e he hef
        refine (gfdl_loop_flagged_invariant true dur rest st' st'' hloop
          _ ?_ ?_).2 e he hef
        · rw [hproc]
          exact List.mem_append.mpr (.inr (List.mem_singleton.mpr rfl))
        · intro e1 he1 hef1
          rw [hents] at he1
          rcases List.mem_append.mp he1 with hm | hm
          · exact hpre e1 hm hef1
          · rw [List.mem_singleton.mp hm]
            rfl
    · exfalso
      simp at habs

/-- Witness for C3: a concrete 20-token line with latitude token "0"
produces the flagged all-zero observation, a later recurrence of forecast
hour 6 is skipped, and the surviving observation with hour 6 is flagged. -/
theorem C3_gfdl_zero_latitude_flagged_witness :
    get_gfdltrk_track_data_step true none
      { flagged_fhrs := [], processed_fhrs := [],
        cycle_track := { start_date := -1, tracker_entries := [] } }
      "AL, 09, 2005080100, 03, HWRF, 600, 0, 400W, 75, 998, a, b, c, d, e, f, g, h, i, j" =
      .ok { flagged_fhrs := [6],
            processed_fhrs := [6],
            cycle_track :=
              { start_date := 1122854400,
                tracker_entries :=
                  [mkTrackerData 1122854400 (some 6) true 0 0 0 0] } }
    ∧ get_gfdltrk_track_data_loop true none
        ["AL, 09, 2005080100, 03, HWRF, 600, 167N, 400W, 75, 998, a, b, c, d, e, f, g, h, i, j"]
        { flagged_fhrs := [6],
          processed_fhrs := [6],
          cycle_track :=
            { start_date := 1122854400,
              tracker_entries :=
                [mkTrackerData 1122854400 (some 6) true 0 0 0 0] } } =
      .ok { flagged_fhrs := [6],
            processed_fhrs := [6],
            cycle_track :=
              { start_date := 1122854400,
                tracker_entries :=
                  [mkTrackerData 1122854400 (some 6) true 0 0 0 0] } }
    ∧ (mkTrackerData 1122854400 (some 6) true 0 0 0 0).flagged = true := by
  have h1 : get_gfdltrk_track_data_step true none
      { flagged_fhrs := [], processed_fhrs := [],
        cycle_track := { start_date := -1, tracker_entries := [] } }
      "AL, 09, 2005080100, 03, HWRF, 600, 0, 400W, 75, 998, a, b, c, d, e, f, g, h, i, j" =
      .ok { flagged_fhrs := [6],
            processed_fhrs := [6],
            cycle_track :=
              { start_date := 1122854400,
                tracker_entries :=
                  [mkTrackerData 1122854400 (some 6) true 0 0 0 0] } } := by
    decide
  have h2 : get_gfdltrk_track_data_loop true none
      ["AL, 09, 2005080100, 03, HWRF, 600, 167N, 400W, 75, 998, a, b, c, d, e, f, g, h, i, j"]
      { flagged_fhrs := [6],
        processed_fhrs := [6],
        cycle_track :=
          { start_date := 1122854400,
            tracker_entries :=
              [mkTrackerData 1122854400 (some 6) true 0 0 0 0] } } =
      .ok { flagged_fhrs := [6],
            processed_fhrs := [6],
            cycle_track :=
              { start_date := 1122854400,
                tracker_entries :=
                  [mkTrackerData 1122854400 (some 6) true 0 0 0 0] } } := by
    decide
  refine ⟨h1, h2, ?_⟩
  exact (C3_gfdl_zero_latitude_flagged none _ _ _ 600 1122854400
    (by decide) (by decide) (by decide) (by decide) (by decide) (by decide)
    h1).2.2.2 _ _ h2 (by intro e he; exact absurd he (List.not_mem_nil e))
    _ (by decide) (by decide)

/-- Counterexample to C4 as stated: with includeFlaggedEntries=false the
side-file (here listing forecast hour 6) is never read — utils.py 241
guards the read with `if include_flagged_entries:` — so a line with hour 6
and normal raw values is returned as an unflagged observation instead of
being dropped. -/
theorem C4_sidefile_ignored_counterexample :
    get_gfdltrk_track_data
      ["AL, 09, 2005080100, 03, HWRF, 600, 167N, 400W, 75, 998, a, b, c, d, e, f, g, h, i, j"]
      (some [6]) false none =
      .ok { start_date := 1122854400,
            tracker_entries :=
              [mkTrackerData 1122854400 (some 6) false
                (Rat.divInt 167 10) (-(Rat.divInt 400 10))
                (Rat.divInt 998 1) (Rat.divInt 75 1)] }
    ∧ (mkTrackerData 1122854400 (some 6) false (Rat.divInt 167 10)
        (-(Rat.divInt 400 10)) (Rat.divInt 998 1)
        (Rat.divInt 75 1)).flagged = false := by
  constructor
  · decide
  · rfl

/-- C4 amended: the side-file is honored only when
includeFlaggedEntries=true; in that case its forecast hours seed the
flagged set, and every observation of the returned track whose forecast
hour is listed in the side-file comes out flagged regardless of its raw
field values. -/
theorem C4_sidefile_flags_when_included (lines : List String)
    (L : List Int) (dur : Option ℚ) (t : ForecastTrack)
    (hp : get_gfdltrk_track_data lines (some L) true dur = .ok t) :
    ∀ e ∈ t.tracker_entries, ∀ x ∈ L, e.fhr = some x →
      e.flagged = true := by
  rw [get_gfdltrk_track_data.eq_def] at hp
  dsimp only at hp
  rw [if_pos rfl] at hp
  split at hp
  · exact Except.noConfusion hp
  rename_i st hloop
  have ht : st.cycle_track = t := Except.ok.inj hp
  intro e he x hx hef
  refine (gfdl_loop_sidefile_invariant true dur lines _ st hloop L
    (fun x hx => hx) ?_).2 e ?_ x hx hef
  · intro e1 he1
    exact absurd he1 (List.not_mem_nil e1)
  · rw [ht]
    exact he

/-- Witness for C4 amended: with includeFlaggedEntries=true and a side-file
listing hour 6, the observation for hour 6 is returned flagged even though
its raw fields are normal. -/
theorem C4_sidefile_flags_when_included_witness :
    get_gfdltrk_track_data
      ["AL, 09, 2005080100, 03, HWRF, 600, 167N, 400W, 75, 998, a, b, c, d, e, f, g, h, i, j"]
      (some [6]) true none =
      .ok { start_date := 1122854400,
            tracker_entries :=
              [mkTrackerData 1122854400 (some 6) true
                (Rat.divInt 167 10) (-(Rat.divInt 400 10))
                (Rat.divInt 998 1) (Rat.divInt 75 1)] }
    ∧ (mkTrackerData 1122854400 (some 6) true (Rat.divInt 167 10)
        (-(Rat.divInt 400 10)) (Rat.divInt 998 1)
        (Rat.divInt 75 1)).flagged = true := by
  have hp : get_gfdltrk_track_data
      ["AL, 09, 2005080100, 03, HWRF, 600, 167N, 400W, 75, 998, a, b, c, d, e, f, g, h, i, j"]
      (some [6]) true none =
      .ok { start_date := 1122854400,
            tracker_entries :=
              [mkTrackerData 1122854400 (some 6) true
                (Rat.divInt 167 10) (-(Rat.divInt 400 10))
                (Rat.divInt 998 1) (Rat.divInt 75 1)] } := by decide
  refine ⟨hp, ?_⟩
  exact C4_sidefile_flags_when_included _ [6] none _ hp _ (by decide) 6
    (by decide) (by decide)

/-- The Diapost loop splits over list append. -/
theorem diapost_loop_append (inc : Bool) (dur : Option ℚ)
    (nswe : Option (Option ℚ × Option ℚ × Option ℚ × Option ℚ))
    (l1 l2 : List String) :
    ∀ track : ForecastTrack,
      get_diapost_track_data_loop inc dur nswe (l1 ++ l2) track =
        (match get_diapost_track_data_loop inc dur nswe l1 track with
         | .error err => .error err
         | .ok t1 => get_diapost_track_data_loop inc dur nswe l2 t1) := by
  induction l1 with
  | nil => intro track; rfl
  | cons line rest ih =>
      intro track
      rw [List.cons_append, get_diapost_track_data_loop,
        get_diapost_track_data_loop]
      cases get_diapost_track_data_step inc dur nswe track line with
      | error err => rfl
      | ok t1 => exact ih t1

/-- The GFDL loop splits over list append. -/
theorem gfdl_loop_append (inc : Bool) (dur : Option ℚ)
    (l1 l2 : List String) :
    ∀ st : GfdlState,
      get_gfdltrk_track_data_loop inc dur (l1 ++ l2) st =
        (match get_gfdltrk_track_data_loop inc dur l1 st with
         | .error err => .error err
         | .ok s1 => get_gfdltrk_track_data_loop inc dur l2 s1) := by
  induction l1 with
  | nil => intro st; rfl
  | cons line rest ih =>
      intro st
      rw [List.cons_append, get_gfdltrk_track_data_loop,
        get_gfdltrk_track_data_loop]
      cases get_gfdltrk_track_data_step inc dur st line with
      | error err => rfl
      | ok s1 => exact ih s1

/-- A successfully processed 8-token Diapost line (no duration cap)
overwrites the track's start_date with its start-date token, whether or not
the entry itself survives the flag and bounds filters. -/
theorem diapost_step_start_date (inc : Bool)
    (nswe : Option (Option ℚ × Option ℚ × Option ℚ × Option ℚ))
    (track track' : ForecastTrack) (line : String)
    (h8 : (pySplitWs line).length = 8)
    (hstep : get_diapost_track_data_step inc none nswe track line =
      .ok track') :
    yyyymmddHH_to_epoch
      ((pySplitWs line).getD DIAPOST_TRACK_FILE_START_DATE_IDX "") =
      .ok track'.start_date := by
  rw [get_diapost_track_data_step] at hstep
  dsimp only at hstep
  rw [if_neg (fun hne => hne h8)] at hstep
  split at hstep
  · exact Except.noConfusion hstep
  rename_i fhr hfhr
  rw [if_neg (by simp [durationSkip])] at hstep
  split at hstep
  · exact Except.noConfusion hstep
  rename_i flagv hflagv
  split at hstep
  · exact Except.noConfusion hstep
  rename_i sd hsd
  split at hstep
  · exact Except.noConfusion hstep
  · exact Except.noConfusion hstep
  rename_i lat lon hlat hlon
  generalize (if nswe.isSome = true then _check_if_in_bounds lat lon nswe
    else true) = ib at hstep
  split at hstep
  · split at hstep
    · exact Except.noConfusion hstep
    · exact Except.noConfusion hstep
    rename_i mslp wind hmslp hwind
    cases hstep
    exact hsd
  · cases hstep
    exact hsd

/-- A successfully processed GFDL line with a valid token count whose
forecast hour is fresh (no duration cap) overwrites the track's start_date
with its start-date token. -/
theorem gfdl_step_start_date (inc : Bool) (st st' : GfdlState)
    (line : String) (r : Int)
    (hlen : ((pySplitChar line ',').map pyStrip).length = 43 ∨
      ((pySplitChar line ',').map pyStrip).length = 20)
    (hr : pyInt (((pySplitChar line ',').map pyStrip).getD
      GFDLTRK_TRACK_FILE_FHR_IDX "") = .ok r)
    (hnd : (if ((pySplitChar line ',').map pyStrip).length = 20 then
      Int.fdiv r 100 else r) ∉ st.processed_fhrs)
    (hstep : get_gfdltrk_track_data_step inc none st line = .ok st') :
    yyyymmddHH_to_epoch (((pySplitChar line ',').map pyStrip).getD
      GFDLTRK_TRACK_FILE_START_DATE_IDX "") =
      .ok st'.cycle_track.start_date := by
  rcases gfdl_step_spec inc none st st' line hstep with ⟨_, hreason⟩ |
    ⟨fhr0, fhr, sd, flagged, lat, lon, mslp, wind, _, hfhr0, hFdef, hsd,
      _, _, _, _, hstart, _, _, _⟩
  · exfalso
    rcases hreason with hbad | ⟨fhr0, fhr, hfhr0, hFdef, hmem | hdur⟩
    · exact hbad hlen
    · have h0 : fhr0 = r := Except.ok.inj (hfhr0.symm.trans hr)
      subst h0
      exact hnd (hFdef ▸ hmem)
    · rw [show durationSkip none fhr = false from rfl] at hdur
      exact absurd hdur (by decide)
  · rw [hstart]
    exact hsd

/-- C10: for a Diapost or GFDL parse without a duration cap, the returned
track's reference epoch is the start-date token of the last well-formed
line processed — the value is overwritten on each processed line — and if
the file contains no well-formed line the reference epoch keeps the
placeholder sentinel -1 the track was constructed with. -/
theorem C10_start_date_last_processed_line :
    (∀ (lines : List String),
      (∀ line ∈ lines, (pySplitWs line).length ≠ 8) →
      ∀ (inc : Bool)
        (nswe : Option (Option ℚ × Option ℚ × Option ℚ × Option ℚ))
        (t : ForecastTrack),
        get_diapost_track_data lines inc none nswe = .ok t →
        t.start_date = -1)
    ∧ (∀ (ls : List String) (l : String) (inc : Bool)
        (nswe : Option (Option ℚ × Option ℚ × Option ℚ × Option ℚ))
        (t : ForecastTrack) (s : Int),
        get_diapost_track_data (ls ++ [l]) inc none nswe = .ok t →
        (pySplitWs l).length = 8 →
        yyyymmddHH_to_epoch
          ((pySplitWs l).getD DIAPOST_TRACK_FILE_START_DATE_IDX "") =
          .ok s →
        t.start_date = s)
    ∧ (∀ (lines : List String),
      (∀ line ∈ lines,
        ¬(((pySplitChar line ',').map pyStrip).length = 43 ∨
          ((pySplitChar line ',').map pyStrip).length = 20)) →
      ∀ (sideFile : Option (List Int)) (inc : Bool) (t : ForecastTrack),
        get_gfdltrk_track_data lines sideFile inc none = .ok t →
        t.start_date = -1)
    ∧ (∀ (ls : List String) (l : String) (inc : Bool)
        (st0 stmid st' : GfdlState) (r s : Int),
        get_gfdltrk_track_data_loop inc none ls st0 = .ok stmid →
        get_gfdltrk_track_data_loop inc none (ls ++ [l]) st0 = .ok st' →
        (((pySplitChar l ',').map pyStrip).length = 43 ∨
         ((pySplitChar l ',').map pyStrip).length = 20) →
        pyInt (((pySplitChar l ',').map pyStrip).getD
          GFDLTRK_TRACK_FILE_FHR_IDX "") = .ok r →
        (if ((pySplitChar l ',').map pyStrip).length = 20 then
          Int.fdiv r 100 else r) ∉ stmid.processed_fhrs →
        yyyymmddHH_to_epoch (((pySplitChar l ',').map pyStrip).getD
          GFDLTRK_TRACK_FILE_START_DATE_IDX "") = .ok s →
        st'.cycle_track.start_date = s) := by
  refine ⟨?_, ?_, ?_, ?_⟩
  · intro lines h inc nswe t hp
    rw [get_diapost_track_data,
      diapost_loop_all_skipped inc none nswe lines h] at hp
    cases Except.ok.inj hp
    rfl
  · intro ls l inc nswe t s hp h8 hs
    rw [get_diapost_track_data, diapost_loop_append] at hp
    split at hp
    · exact Except.noConfusion hp
    rename_i tmid hmid
    rw [get_diapost_track_data_loop] at hp
    split at hp
    · exact Except.noConfusion hp
    rename_i t1 hstep
    rw [get_diapost_track_data_loop] at hp
    cases Except.ok.inj hp
    exact Except.ok.inj
      ((diapost_step_start_date inc nswe tmid _ l h8 hstep).symm.trans hs)
  · intro lines h sideFile inc t hp
    rw [get_gfdltrk_track_data.eq_def] at hp
    dsimp only at hp
    rw [gfdl_loop_all_skipped inc none lines h] at hp
    cases Except.ok.inj hp
    rfl
  · intro ls l inc st0 stmid st' r s hmid hp hlen hr hnd hs
    rw [gfdl_loop_append, hmid] at hp
    dsimp only at hp
    rw [get_gfdltrk_track_data_loop] at hp
    split at hp
    · exact Except.noConfusion hp
    rename_i s1 hstep
    rw [get_gfdltrk_track_data_loop] at hp
    cases Except.ok.inj hp
    exact Except.ok.inj
      ((gfdl_step_start_date inc stmid _ l r hlen hr hnd hstep).symm.trans
        hs)

/-- Witness for C10: a Diapost file whose last well-formed line carries
start date 2005080100 yields a track with that reference epoch even though
an earlier malformed line was skipped, and one processed GFDL line
overwrites the placeholder -1 with its own start-date token. -/
theorem C10_start_date_last_processed_line_witness :
    get_diapost_track_data ["garbage", "2005080100 0 0 0 -400 167 998 75"] =
      .ok { start_date := 1122854400,
            tracker_entries :=
              [mkTrackerData 1122854400 (some 0) false (Rat.divInt 167 1)
                (Rat.divInt (-400) 1) (Rat.divInt 998 1)
                (Rat.divInt 75 1)] }
    ∧ ({ start_date := 1122854400,
         tracker_entries :=
           [mkTrackerData 1122854400 (some 0) false (Rat.divInt 167 1)
             (Rat.divInt (-400) 1) (Rat.divInt 998 1)
             (Rat.divInt 75 1)] } : ForecastTrack).start_date = 1122854400
    ∧ get_gfdltrk_track_data_loop false none
        ["AL, 09, 2005080100, 03, HWRF, 600, 167N, 400W, 75, 998, a, b, c, d, e, f, g, h, i, j"]
        { flagged_fhrs := [], processed_fhrs := [],
          cycle_track := { start_date := -1, tracker_entries := [] } } =
      .ok { flagged_fhrs := [],
            processed_fhrs := [6],
            cycle_track :=
              { start_date := 1122854400,
                tracker_entries :=
                  [mkTrackerData 1122854400 (some 6) false
                    (Rat.divInt 167 10) (-(Rat.divInt 400 10))
                    (Rat.divInt 998 1) (Rat.divInt 75 1)] } }
    ∧ ({ flagged_fhrs := [],
         processed_fhrs := [6],
         cycle_track :=
           { start_date := 1122854400,
             tracker_entries :=
               [mkTrackerData 1122854400 (some 6) false
                 (Rat.divInt 167 10) (-(Rat.divInt 400 10))
                 (Rat.divInt 998 1) (Rat.divInt 75 1)] } } :
        GfdlState).cycle_track.start_date = 1122854400 := by
  have hp : get_diapost_track_data
      (["garbage"] ++ ["2005080100 0 0 0 -400 167 998 75"]) =
      .ok { start_date := 1122854400,
            tracker_entries :=
              [mkTrackerData 1122854400 (some 0) false (Rat.divInt 167 1)
                (Rat.divInt (-400) 1) (Rat.divInt 998 1)
                (Rat.divInt 75 1)] } := by decide
  have hloop : get_gfdltrk_track_data_loop false none
      ([] ++ ["AL, 09, 2005080100, 03, HWRF, 600, 167N, 400W, 75, 998, a, b, c, d, e, f, g, h, i, j"])
      { flagged_fhrs := [], processed_fhrs := [],
        cycle_track := { start_date := -1, tracker_entries := [] } } =
      .ok { flagged_fhrs := [],
            processed_fhrs := [6],
            cycle_track :=
              { start_date := 1122854400,
                tracker_entries :=
                  [mkTrackerData 1122854400 (some 6) false
                    (Rat.divInt 167 10) (-(Rat.divInt 400 10))
                    (Rat.divInt 998 1) (Rat.divInt 75 1)] } } := by decide
  refine ⟨hp, ?_, hloop, ?_⟩
  · exact C10_start_date_last_processed_line.2.1 ["garbage"]
      "2005080100 0 0 0 -400 167 998 75" false none _ 1122854400 hp
      (by decide) (by decide)
  · exact C10_start_date_last_processed_line.2.2.2 []
      "AL, 09, 2005080100, 03, HWRF, 600, 167N, 400W, 75, 998, a, b, c, d, e, f, g, h, i, j"
      false _ _ _ 600 1122854400 rfl hloop (by decide) (by decide)
      (by decide) (by decide)

/-- The haversine great-circle distance between a point and itself is
exactly zero. -/
theorem great_circle_distance_self (p : ℚ × ℚ) :
    _great_circle_distance p p = 0 := by
  unfold _great_circle_distance math_radians math_atan2
  simp only [sub_self, sub_zero, zero_mul, mul_zero, zero_div,
    Real.sin_zero, add_zero, zero_add, Real.sqrt_zero, Real.sqrt_one]
  rw [if_pos (by norm_num : (0 : ℝ) < 1)]
  simp [Real.arctan_zero]

/-- The differencer's position error vanishes on identical coordinates. -/
theorem great_circle_kilometers_self (p : ℚ × ℚ) :
    great_circle_kilometers p p = 0 := by
  rw [great_circle_kilometers, great_circle_distance_self, zero_div]

/-- When every entry's fhr is present, absolute_times_dict_aux is the
insertion sequence mapping start + fhr*3600 to the entry. -/
theorem absolute_times_dict_aux_eq (sd : Int) (l : List TrackerData)
    (hall : ∀ e ∈ l, e.fhr ≠ none) :
    absolute_times_dict_aux sd l =
      .ok (l.map (fun e => (sd + e.fhr.getD 0 * 3600, e))) := by
  induction l with
  | nil => rfl
  | cons e rest ih =>
      rcases he : e.fhr with _ | h
      · exact absurd he (hall e (List.mem_cons_self e rest))
      · rw [absolute_times_dict_aux, he,
          ih (fun x hx => hall x (List.mem_cons_of_mem e hx))]
        simp [he]

/-- Lookup in a Python dict with pairwise-distinct keys returns the unique
binding. -/
theorem find?_unique_key (l : List (Int × TrackerData)) (k : Int)
    (e : TrackerData) (hmem : (k, e) ∈ l)
    (hnod : (l.map Prod.fst).Nodup) :
    l.find? (fun p => p.1 = k) = some (k, e) := by
  induction l with
  | nil => exact absurd hmem (List.not_mem_nil _)
  | cons a rest ih =>
      rcases List.mem_cons.mp hmem with rfl | hmem2
      · rw [List.find?_cons_of_pos _ (by simp)]
      · by_cases hk : a.1 = k
        · exfalso
          rw [List.map_cons] at hnod
          have hkrest : k ∈ rest.map Prod.fst :=
            List.mem_map.mpr ⟨(k, e), hmem2, rfl⟩
          rw [hk] at hnod
          exact (List.nodup_cons.mp hnod).1 hkrest
        · rw [List.find?_cons_of_neg _ (by simpa using hk)]
          rw [List.map_cons] at hnod
          exact ih hmem2 (List.nodup_cons.mp hnod).2

/-- pyDictGet on pairwise-distinct keys returns the unique binding. -/
theorem pyDictGet_unique (l : List (Int × TrackerData)) (k : Int)
    (e : TrackerData) (hmem : (k, e) ∈ l)
    (hnod : (l.map Prod.fst).Nodup) :
    pyDictGet l k = some e := by
  rw [pyDictGet, find?_unique_key l.reverse k e
    (List.mem_reverse.mpr hmem) (by
      rw [List.map_reverse]
      exact List.nodup_reverse.mpr hnod)]
  rfl

/-- Iterating the differencer's loop over entries of t against t itself
(default options), with aligned reference epochs and pairwise-distinct
forecast hours, pairs every entry with itself and produces all-zero
differences. -/
theorem diff_loop_self_zero (t : ForecastTrack)
    (hstart : ∀ e ∈ t.tracker_entries, e.start_date = t.start_date)
    (hsome : ∀ e ∈ t.tracker_entries, e.fhr ≠ none)
    (hnodup : (t.tracker_entries.map TrackerData.fhr).Nodup) :
    ∀ l : List TrackerData, (∀ e ∈ l, e ∈ t.tracker_entries) →
      ∃ ds, _get_track_diffs_loop t true (fun a b => a - b) true false l =
          .ok ds ∧
        ds.length = l.length ∧
        ∀ d ∈ ds, d.track_error = 0 ∧ d.mslp_error = 0 ∧
          d.maxwind_error = 0 := by
  have hd : t.absolute_times_dict =
      .ok (t.tracker_entries.map
        (fun e => (t.start_date + e.fhr.getD 0 * 3600, e))) :=
    absolute_times_dict_aux_eq t.start_date t.tracker_entries hsome
  have hkeys : ((t.tracker_entries.map
      (fun e => (t.start_date + e.fhr.getD 0 * 3600, e))).map
        Prod.fst).Nodup := by
    rw [List.map_map]
    refine List.Nodup.map_on ?_ (List.Nodup.of_map _ hnodup)
    intro x hx y hy hxy
    simp only [Function.comp] at hxy
    have hxy2 : x.fhr.getD 0 = y.fhr.getD 0 := by omega
    rcases hfx : x.fhr with _ | hx0
    · exact absurd hfx (hsome x hx)
    rcases hfy : y.fhr with _ | hy0
    · exact absurd hfy (hsome y hy)
    refine List.inj_on_of_nodup_map hnodup hx hy ?_
    rw [hfx, hfy]
    rw [hfx, hfy] at hxy2
    simpa using hxy2
  intro l
  induction l with
  | nil => exact fun _ => ⟨[], rfl, rfl, by simp⟩
  | cons e rest ih =>
      intro hsub
      have he : e ∈ t.tracker_entries := hsub e (List.mem_cons_self e rest)
      obtain ⟨ds', hds', hlen', hzero'⟩ :=
        ih (fun x hx => hsub x (List.mem_cons_of_mem e hx))
      rcases hfe : e.fhr with _ | h
      · exact absurd hfe (hsome e he)
      have hepoch : e.get_fhr_epoch = some (t.start_date + h * 3600) := by
        rw [TrackerData.get_fhr_epoch, hfe, hstart e he]
        rfl
      have hmemD : (t.start_date + h * 3600, e) ∈
          t.tracker_entries.map
            (fun e => (t.start_date + e.fhr.getD 0 * 3600, e)) :=
        List.mem_map.mpr ⟨e, he, by rw [hfe]; rfl⟩
      have hget : pyDictGet
          (t.tracker_entries.map
            (fun e => (t.start_date + e.fhr.getD 0 * 3600, e)))
          (t.start_date + h * 3600) = some e :=
        pyDictGet_unique _ _ _ hmemD hkeys
      refine ⟨⟨e.fhr, e.flagged || e.flagged,
        great_circle_kilometers (e.lat, e.lon) (e.lat, e.lon),
        e.mslp_value - e.mslp_value,
        e.maxwind_value - e.maxwind_value⟩ :: ds', ?_, by simp [hlen'], ?_⟩
      · rw [_get_track_diffs_loop, if_pos rfl, hd]
        dsimp only
        rw [hepoch]
        try dsimp only
        rw [hget]
        try dsimp only
        rw [if_neg (by simp)]
        try dsimp only
        rw [hds']
        simp
      · intro d hdm
        rcases List.mem_cons.mp hdm with rfl | hdm2
        · exact ⟨great_circle_kilometers_self _, sub_self _, sub_self _⟩
        · exact hzero' d hdm2

/-- Counterexample to C5 as stated: diffing a track against itself is not
all-zero for every track with integer forecast hours and numeric fields.
First track: two observations share forecast hour 0 with different
pressures, so the epoch dictionary maps their common epoch to the second
observation and the first aligned timestamp gets pressure delta
900 - 1000 ≠ 0.  Second track: forecast hours are distinct but the first
observation's own reference epoch (3600) differs from the track's (0), so
it aligns with the other observation, again giving 900 - 1000.  -/
theorem C5_self_diff_counterexample :
    (ForecastTrackDiff_tracker_entries
        { start_date := 0,
          tracker_entries :=
            [mkTrackerData 0 (some 0) false 0 0 900 50,
             mkTrackerData 0 (some 0) false 0 0 1000 50] }
        { start_date := 0,
          tracker_entries :=
            [mkTrackerData 0 (some 0) false 0 0 900 50,
             mkTrackerData 0 (some 0) false 0 0 1000 50] }).map
      (List.map TrackerDataDiff.mslp_error) =
      .ok [900 - 1000, 1000 - 1000]
    ∧ (ForecastTrackDiff_tracker_entries
        { start_date := 0,
          tracker_entries :=
            [mkTrackerData 3600 (some 0) false 0 0 900 50,
             mkTrackerData 0 (some 1) false 0 0 1000 50] }
        { start_date := 0,
          tracker_entries :=
            [mkTrackerData 3600 (some 0) false 0 0 900 50,
             mkTrackerData 0 (some 1) false 0 0 1000 50] }).map
      (List.map TrackerDataDiff.mslp_error) =
      .ok [900 - 1000, 1000 - 1000]
    ∧ (900 - 1000 : ℚ) ≠ 0 := by
  refine ⟨rfl, rfl, by norm_num⟩

/-- C5 amended: diffing a track T against itself with default options
yields a diff observation for every timestamp with trackErrorKm,
pressureErrorMb and windErrorKts all zero, provided T's observations carry
pairwise-distinct integer forecast hours and each observation's reference
epoch equals the track's reference epoch (so each observation aligns with
itself). -/
theorem C5_self_diff_all_zero (t : ForecastTrack)
    (hstart : ∀ e ∈ t.tracker_entries, e.start_date = t.start_date)
    (hsome : ∀ e ∈ t.tracker_entries, e.fhr ≠ none)
    (hnodup : (t.tracker_entries.map TrackerData.fhr).Nodup) :
    ∃ ds, ForecastTrackDiff_tracker_entries t t = .ok ds ∧
      ds.length = t.tracker_entries.length ∧
      ∀ d ∈ ds, d.track_error = 0 ∧ d.mslp_error = 0 ∧
        d.maxwind_error = 0 :=
  diff_loop_self_zero t hstart hsome hnodup t.tracker_entries
    (fun _ h => h)

/-- Witness for C5 amended at a concrete two-observation track. -/
theorem C5_self_diff_all_zero_witness :
    ∃ ds, ForecastTrackDiff_tracker_entries
        { start_date := 0,
          tracker_entries :=
            [mkTrackerData 0 (some 0) false 1 2 900 50,
             mkTrackerData 0 (some 3) false 4 5 1000 60] }
        { start_date := 0,
          tracker_entries :=
            [mkTrackerData 0 (some 0) false 1 2 900 50,
             mkTrackerData 0 (some 3) false 4 5 1000 60] } = .ok ds ∧
      ds.length = 2 ∧
      ∀ d ∈ ds, d.track_error = 0 ∧ d.mslp_error = 0 ∧
        d.maxwind_error = 0 := by
  obtain ⟨ds, h1, h2, h3⟩ := C5_self_diff_all_zero
    { start_date := 0,
      tracker_entries :=
        [mkTrackerData 0 (some 0) false 1 2 900 50,
         mkTrackerData 0 (some 3) false 4 5 1000 60] }
    (by decide) (by decide) (by decide)
  exact ⟨ds, h1, by simpa using h2, h3⟩

/-- Full case analysis of one b-deck line-loop iteration that succeeds:
the YMDH token converts to an epoch d, and either the line is dropped with
the state unchanged (d already added — a later wind-radius record for the
same time — or d earlier than the experiment start date), or the entry is
appended with fhr = (d - startDate) / 3600 under Python 2 floor division
and d is recorded as added. -/
theorem bdeck_step_spec (sd : Int) (st st' : BdeckState) (line : String)
    (hstep : get_bdeck_track_data_step sd st line = .ok st') :
    ∃ d, yyyymmddHH_to_epoch
        ((pySplitCommaSpace line).getD BDECK_idxYMDH "") = .ok d ∧
      (((d ∈ st.added_dates ∨ d < sd) ∧ st' = st) ∨
       (d ∉ st.added_dates ∧ ¬(d < sd) ∧
        st'.added_dates = st.added_dates ++ [d] ∧
        st'.fcst_track.start_date = st.fcst_track.start_date ∧
        ∃ lat lon mslp wind,
          st'.fcst_track.tracker_entries =
            st.fcst_track.tracker_entries ++
              [mkTrackerData sd (some (Int.fdiv (d - sd) 3600)) false
                lat lon mslp wind])) := by
  rw [get_bdeck_track_data_step] at hstep
  dsimp only at hstep
  rcases h1 : pyIdx (pySplitCommaSpace line) BDECK_idxLat with e1 | latTok <;>
    rw [h1] at hstep <;> simp only at hstep
  · exact Except.noConfusion hstep
  rcases h2 : pyLast latTok with e2 | latC <;>
    rw [h2] at hstep <;> simp only at hstep
  · exact Except.noConfusion hstep
  by_cases ha1 : ¬(latC = 'N' ∨ latC = 'S')
  · rw [if_pos ha1] at hstep
    exact Except.noConfusion hstep
  rw [if_neg ha1] at hstep
  rcases h3 : pyIdx (pySplitCommaSpace line) BDECK_idxLon with e3 | lonTok <;>
    rw [h3] at hstep <;> simp only at hstep
  · exact Except.noConfusion hstep
  rcases h4 : pyLast lonTok with e4 | lonC <;>
    rw [h4] at hstep <;> simp only at hstep
  · exact Except.noConfusion hstep
  by_cases ha2 : ¬(lonC = 'W' ∨ lonC = 'E')
  · rw [if_pos ha2] at hstep
    exact Except.noConfusion hstep
  rw [if_neg ha2] at hstep
  rcases h5 : pyIdx (pySplitCommaSpace line) BDECK_idxTrackType with
    e5 | typeTok <;> rw [h5] at hstep <;> simp only at hstep
  · exact Except.noConfusion hstep
  by_cases ha3 : typeTok ≠ "BEST"
  · rw [if_pos ha3] at hstep
    exact Except.noConfusion hstep
  rw [if_neg ha3] at hstep
  rcases h6 : pyInt (pyDropLast latTok) with e6 | latMag <;>
    rw [h6] at hstep <;> simp only at hstep
  · exact Except.noConfusion hstep
  rcases h7 : pyInt (pyDropLast lonTok) with e7 | lonMag <;>
    rw [h7] at hstep <;> simp only at hstep
  · exact Except.noConfusion hstep
  rcases h8 : pyIdx (pySplitCommaSpace line) BDECK_idxYMDH with
    e8 | dateTok <;> rw [h8] at hstep <;> simp only at hstep
  · exact Except.noConfusion hstep
  rcases h9 : yyyymmddHH_to_epoch dateTok with e9 | d <;>
    rw [h9] at hstep <;> simp only at hstep
  · exact Except.noConfusion hstep
  have hgd : (pySplitCommaSpace line).getD BDECK_idxYMDH "" = dateTok := by
    rcases hidx : (pySplitCommaSpace line).get? BDECK_idxYMDH with _ | v
    · rw [pyIdx, hidx] at h8
      exact Except.noConfusion h8
    · have hv : v = dateTok := by
        rw [pyIdx, hidx] at h8
        exact Except.ok.inj h8
      have h1' : (pySplitCommaSpace line).get? BDECK_idxYMDH =
          some dateTok := by rw [hidx, hv]
      simp only [List.get?_eq_getElem?] at h1'
      simp [List.getD, h1']
  refine ⟨d, by rw [hgd]; exact h9, ?_⟩
  by_cases hmem : d ∈ st.added_dates
  · rw [if_pos hmem] at hstep
    cases hstep
    exact .inl ⟨.inl hmem, rfl⟩
  rw [if_neg hmem] at hstep
  by_cases hlt : d < sd
  · rw [if_pos hlt] at hstep
    cases hstep
    exact .inl ⟨.inr hlt, rfl⟩
  rw [if_neg hlt] at hstep
  rcases h10 : pyIdx (pySplitCommaSpace line) BDECK_idxMslp with
    e10 | mslpTok <;> rw [h10] at hstep <;> simp only at hstep
  · exact Except.noConfusion hstep
  rcases h11 : pyFloat mslpTok with e11 | mslp <;>
    rw [h11] at hstep <;> simp only at hstep
  · exact Except.noConfusion hstep
  rcases h12 : pyIdx (pySplitCommaSpace line) BDECK_idxMaxwind with
    e12 | windTok <;> rw [h12] at hstep <;> simp only at hstep
  · exact Except.noConfusion hstep
  rcases h13 : pyFloat windTok with e13 | wind <;>
    rw [h13] at hstep <;> simp only at hstep
  · exact Except.noConfusion hstep
  cases hstep
  exact .inr ⟨hmem, hlt, rfl, rfl, ⟨_, _, mslp, wind, rfl⟩⟩

/-- The b-deck loop splits over list append. -/
theorem bdeck_loop_append (sd : Int) (l1 l2 : List String) :
    ∀ st : BdeckState,
      get_bdeck_track_data_loop sd (l1 ++ l2) st =
        (match get_bdeck_track_data_loop sd l1 st with
         | .error err => .error err
         | .ok s1 => get_bdeck_track_data_loop sd l2 s1) := by
  induction l1 with
  | nil => intro st; rfl
  | cons line rest ih =>
      intro st
      rw [List.cons_append, get_bdeck_track_data_loop,
        get_bdeck_track_data_loop]
      cases get_bdeck_track_data_step sd st line with
      | error err => rfl
      | ok s1 => exact ih s1

/-- Dates recorded as added stay added through the b-deck loop. -/
theorem bdeck_loop_added_monotone (sd : Int) (lines : List String) :
    ∀ st st' : BdeckState,
      get_bdeck_track_data_loop sd lines st = .ok st' →
      ∀ x ∈ st.added_dates, x ∈ st'.added_dates := by
  induction lines with
  | nil => intro st st' hp x hx; cases hp; exact hx
  | cons line rest ih =>
      intro st st' hp x hx
      rw [get_bdeck_track_data_loop] at hp
      split at hp
      · exact Except.noConfusion hp
      rename_i st1 hstep
      rcases bdeck_step_spec sd st st1 line hstep with
        ⟨d, _, ⟨_, rfl⟩ | ⟨_, _, hadded, _, _⟩⟩
      · exact ih _ st' hp x hx
      · refine ih st1 st' hp x ?_
        rw [hadded]
        exact List.mem_append.mpr (.inl hx)

/-- After a prefix containing a line with date epoch d at or after the
start date has been processed, d is among the added dates. -/
theorem bdeck_loop_date_added (sd : Int) (pre : List String) :
    ∀ st0 st1 : BdeckState,
      get_bdeck_track_data_loop sd pre st0 = .ok st1 →
      ∀ a ∈ pre, ∀ d : Int,
        yyyymmddHH_to_epoch
          ((pySplitCommaSpace a).getD BDECK_idxYMDH "") = .ok d →
        ¬(d < sd) → d ∈ st1.added_dates := by
  induction pre with
  | nil => intro st0 st1 _ a ha; exact absurd ha (List.not_mem_nil a)
  | cons p rest ih =>
      intro st0 st1 hp a ha d hd hnlt
      rw [get_bdeck_track_data_loop] at hp
      split at hp
      · exact Except.noConfusion hp
      rename_i stx hstep
      rcases List.mem_cons.mp ha with rfl | ha2
      · rcases bdeck_step_spec sd st0 stx a hstep with
          ⟨d', hd', hcase⟩
        have hdd : d' = d := Except.ok.inj (hd'.symm.trans hd)
        subst hdd
        rcases hcase with ⟨hmem | hlt, rfl⟩ | ⟨_, _, hadded, _, _⟩
        · exact bdeck_loop_added_monotone sd rest _ st1 hp d' hmem
        · exact absurd hlt hnlt
        · refine bdeck_loop_added_monotone sd rest stx st1 hp d' ?_
          rw [hadded]
          exact List.mem_append.mpr (.inr (List.mem_singleton.mpr rfl))
      · exact ih stx st1 hp a ha2 d hd hnlt

/-- C7: in a b-deck parse, a line whose YMDH date token repeats the date of
an earlier line contributes nothing (the first record for a date wins:
removing the later duplicate leaves the result unchanged); a line whose
date is earlier than the supplied experiment start date produces no
observation and changes no state; every observation produced gets
forecastOffsetHours = (recordEpoch - startDate)/3600 (Python 2 floor
division) and the start date as its reference epoch. -/
theorem C7_bdeck_dedup_skip_fhr (sd : Int) :
    (∀ (pre post : List String) (b a : String) (t : ForecastTrack),
      a ∈ pre →
      (pySplitCommaSpace a).getD BDECK_idxYMDH "" =
        (pySplitCommaSpace b).getD BDECK_idxYMDH "" →
      get_bdeck_track_data (pre ++ [b] ++ post) sd = .ok t →
      get_bdeck_track_data (pre ++ post) sd = .ok t)
    ∧ (∀ (st st' : BdeckState) (l : String) (d : Int),
      get_bdeck_track_data_step sd st l = .ok st' →
      yyyymmddHH_to_epoch ((pySplitCommaSpace l).getD BDECK_idxYMDH "") =
        .ok d →
      d < sd → st' = st)
    ∧ (∀ (st st' : BdeckState) (l : String),
      get_bdeck_track_data_step sd st l = .ok st' →
      ∀ e ∈ st'.fcst_track.tracker_entries,
        e ∉ st.fcst_track.tracker_entries →
        ∃ d, yyyymmddHH_to_epoch
            ((pySplitCommaSpace l).getD BDECK_idxYMDH "") = .ok d ∧
          ¬(d < sd) ∧ e.fhr = some (Int.fdiv (d - sd) 3600) ∧
          e.start_date = sd) := by
  refine ⟨?_, ?_, ?_⟩
  · intro pre post b a t ha hdate hp
    rw [get_bdeck_track_data] at hp ⊢
    rw [bdeck_loop_append sd (pre ++ [b]) post,
      bdeck_loop_append sd pre [b]] at hp
    rw [bdeck_loop_append sd pre post]
    rcases hmid : get_bdeck_track_data_loop sd pre
        { added_dates := [],
          fcst_track := { start_date := sd, tracker_entries := [] } } with
      err | st1
    · rw [hmid] at hp
      simp only at hp
      exact Except.noConfusion hp
    rw [hmid] at hp
    simp only at hp
    rw [get_bdeck_track_data_loop] at hp
    rcases hstepb : get_bdeck_track_data_step sd st1 b with err | st2
    · rw [hstepb] at hp
      simp only at hp
      exact Except.noConfusion hp
    rw [hstepb] at hp
    simp only at hp
    rw [get_bdeck_track_data_loop] at hp
    rcases bdeck_step_spec sd st1 st2 b hstepb with ⟨d, hdb, hcase⟩
    have hda : yyyymmddHH_to_epoch
        ((pySplitCommaSpace a).getD BDECK_idxYMDH "") = .ok d := by
      rw [hdate]; exact hdb
    have hst : st2 = st1 := by
      rcases hcase with ⟨_, h⟩ | ⟨hnmem, hnlt, _, _, _⟩
      · exact h
      · exact absurd (bdeck_loop_date_added sd pre _ st1 hmid a ha d hda
          hnlt) hnmem
    rw [hst] at hp
    exact hp
  · intro st st' l d hstep hd hlt
    rcases bdeck_step_spec sd st st' l hstep with ⟨d', hd', hcase⟩
    have hdd : d' = d := Except.ok.inj (hd'.symm.trans hd)
    subst hdd
    rcases hcase with ⟨_, h⟩ | ⟨_, hnlt, _, _, _⟩
    · exact h
    · exact absurd hlt hnlt
  · intro st st' l hstep e he hne
    rcases bdeck_step_spec sd st st' l hstep with ⟨d, hd, hcase⟩
    rcases hcase with ⟨_, rfl⟩ | ⟨_, hnlt, _, _, lat, lon, mslp, wind,
      hents⟩
    · exact absurd he hne
    · rw [hents] at he
      rcases List.mem_append.mp he with hm | hm
      · exact absurd hm hne
      · rw [List.mem_singleton.mp hm]
        exact ⟨d, hd, hnlt, rfl, rfl⟩

/-- Witness for C7: two BEST lines with the same YMDH produce exactly one
observation (first wins, fhr = 6 relative to start date 2005080100), and
removing the duplicate leaves the parsed track unchanged. -/
theorem C7_bdeck_dedup_skip_fhr_witness :
    get_bdeck_track_data
      ["AL, 09, 2005080106, XX, BEST, 0, 167N, 400W, 75, 998",
       "AL, 09, 2005080106, XX, BEST, 0, 200N, 500W, 80, 990"]
      1122854400 =
      .ok { start_date := 1122854400,
            tracker_entries :=
              [mkTrackerData 1122854400 (some 6) false (Rat.divInt 167 10)
                (-(Rat.divInt 400 10)) (Rat.divInt 998 1)
                (Rat.divInt 75 1)] }
    ∧ get_bdeck_track_data
        ["AL, 09, 2005080106, XX, BEST, 0, 167N, 400W, 75, 998"]
        1122854400 =
      .ok { start_date := 1122854400,
            tracker_entries :=
              [mkTrackerData 1122854400 (some 6) false (Rat.divInt 167 10)
                (-(Rat.divInt 400 10)) (Rat.divInt 998 1)
                (Rat.divInt 75 1)] } := by
  have hp : get_bdeck_track_data
      (["AL, 09, 2005080106, XX, BEST, 0, 167N, 400W, 75, 998"] ++
        ["AL, 09, 2005080106, XX, BEST, 0, 200N, 500W, 80, 990"] ++ [])
      1122854400 =
      .ok { start_date := 1122854400,
            tracker_entries :=
              [mkTrackerData 1122854400 (some 6) false (Rat.divInt 167 10)
                (-(Rat.divInt 400 10)) (Rat.divInt 998 1)
                (Rat.divInt 75 1)] } := by decide
  exact ⟨hp, (C7_bdeck_dedup_skip_fhr 1122854400).1
    ["AL, 09, 2005080106, XX, BEST, 0, 167N, 400W, 75, 998"] []
    "AL, 09, 2005080106, XX, BEST, 0, 200N, 500W, 80, 990"
    "AL, 09, 2005080106, XX, BEST, 0, 167N, 400W, 75, 998"
    _ (by decide) (by decide) hp⟩
